import Mathlib

/-!
Car-rental front end: booking arithmetic, route guards and session store.

A shallow embedding of the pieces of the front end that carry logic:

* `PublicBooking.calculateDays`, `PublicBooking.totalAmount`, the initial
  draft and `PublicBooking.handleSubmit`
  (`frontend/src/components/PublicBooking.js`, component `BookingModal`);
* `App.ProtectedRoute`, `App.PublicRoute` and the route table
  (`frontend/src/App.js`);
* `AuthContext.load`, `AuthContext.login`, `AuthContext.register` and
  `AuthContext.logout` (`frontend/src/contexts/AuthContext.js`).

Modelling conventions.

* A JavaScript `Date` is represented by its time value, an integer number of
  milliseconds since the epoch.  A date field of the form holds either a
  `Date` or `null` (a cleared date picker); `new Date(null)` is the epoch.
* Numbers are exact: the time difference is an integer, the quotient by the
  length of a day is a rational, prices are rationals.  For time values from
  the epoch onwards (the date pickers are bounded below by the current date)
  the difference stays under 2^53 and double precision computes the
  difference, and the ceiling of the quotient, without rounding error.
  The product of the duration and a price is where double precision rounds:
  `roundToDouble` is the IEEE 754 binary64 rounding (to nearest, ties to
  even) and `totalAmountDouble` the product as the code computes it.
* A rendered React element is abstracted to the three shapes the guards can
  return: the loading indicator, a `<Navigate>` element, or the children.
* The provider's state is passed explicitly: the persisted `localStorage`,
  the shared `Authorization` default header of axios, and the React state
  `user` and `loading`.  An asynchronous operation takes the outcome of its
  remote call, and of the writes to `localStorage` that follow it, as an
  argument.  `JSON.parse` and `JSON.stringify` are platform built-ins and
  enter as a parameter.
-/

namespace PublicBooking

/-- The `car` prop of `BookingModal`, restricted to the fields the modal reads. -/
structure Car where
  car_id : String
  title : String
  price_per_day : ℚ
deriving DecidableEq

/-- The `formData` state of `BookingModal`.  A date field is `some t` for a
`Date` with time value `t` (milliseconds) and `none` for `null`. -/
structure FormData where
  client_name : String
  client_email : String
  client_phone : String
  pickup_date : Option Int
  return_date : Option Int
  pickup_location : String
  return_location : String
  message : String
deriving DecidableEq

/-- The time value of `new Date(v)` for a form date field `v`: a `Date` is
copied, `null` converts to the number `0`. -/
def newDate : Option Int → Int
  | some t => t
  | none => 0

/-- The function `calculateDays` of `BookingModal`:
```
const pickupDate = new Date(formData.pickup_date);
const returnDate = new Date(formData.return_date);
const diffTime = Math.abs(returnDate - pickupDate);
const diffDays = Math.ceil(diffTime / (1000 * 60 * 60 * 24));
return diffDays || 1;
```
-/
def calculateDays (formData : FormData) : Int :=
  let pickupDate := newDate formData.pickup_date
  let returnDate := newDate formData.return_date
  let diffTime : Int := |returnDate - pickupDate|
  let diffDays : Int := Int.ceil ((diffTime : ℚ) / (1000 * 60 * 60 * 24))
  if diffDays = 0 then 1 else diffDays

/-- The constant `totalAmount` of `BookingModal`,
`calculateDays() * car.price_per_day`, in exact arithmetic.  The code
multiplies in double precision; the double it obtains is `totalAmountDouble`,
the rounding of this value, and the two agree whenever the exact product is
a double. -/
def totalAmount (formData : FormData) (car : Car) : ℚ :=
  (calculateDays formData : ℚ) * car.price_per_day

/-- Spec §4.4 `duration_days`, following the words of the specification: the
ceiling of the absolute difference of the two instants measured in days
(milliseconds / 86,400,000), and exactly 1 when the instants are identical. -/
def durationDaysSpec (pickup ret : Int) : Int :=
  if ret = pickup then 1 else Int.ceil ((|ret - pickup| : ℚ) / 86400000)

/-- Spec §4.4 `total_amount`: `duration_days × car.price_per_day`. -/
def totalAmountSpec (pickup ret : Int) (pricePerDay : ℚ) : ℚ :=
  (durationDaysSpec pickup ret : ℚ) * pricePerDay

/-- The calendar day (days since the epoch) on which an instant falls, in a
time zone at a fixed offset of `tz` milliseconds from UTC. -/
def calendarDay (tz t : Int) : Int := (t + tz) / 86400000

/-- The time of day (milliseconds since local midnight) of an instant, in a
time zone at a fixed offset of `tz` milliseconds from UTC. -/
def timeOfDay (tz t : Int) : Int := (t + tz) % 86400000

/-- A draft with the given date fields and empty text fields. -/
def draft (pickup ret : Option Int) : FormData :=
  { client_name := "", client_email := "", client_phone := "",
    pickup_date := pickup, return_date := ret,
    pickup_location := "", return_location := "", message := "" }

end PublicBooking

namespace App

/-- The user record exposed by the auth context (spec §3 `UserProfile`).  The
record comes from the server or from persisted state, so `role` may hold any
string or be missing (`none`, JavaScript `undefined`); `agency_id` is absent
for a platform operator. -/
structure User where
  id : String
  email : String
  first_name : String
  last_name : String
  role : Option String
  agency_id : Option String
deriving DecidableEq

/-- The part of the `useAuth()` value that the route guards read: the current
`user` (`none` for `null`) and the `loading` flag. -/
structure AuthValue where
  user : Option User
  loading : Bool
deriving DecidableEq

/-- What a route guard returns: the spinner markup, a `<Navigate to=... />`
element (its `to` prop is the field `path`) together with its `replace` flag,
or the `children` it wraps. -/
inductive Element where
  | loadingIndicator
  | navigate (path : String) (replace : Bool)
  | children
deriving DecidableEq

/-- The call `allowedRoles.includes(user.role)` on an array of strings: a
missing role (`undefined`) is equal to no string. -/
def includes (allowedRoles : List String) (role : Option String) : Bool :=
  match role with
  | some r => allowedRoles.contains r
  | none => false

/-- The component `ProtectedRoute` of `App.js`.  The prop `allowedRoles` is
`none` when it is not passed (`undefined`); an array is always truthy.
```
if (loading) return <div ...spinner... />;
if (!user) return <Navigate to="/login" replace />;
if (allowedRoles && !allowedRoles.includes(user.role))
  return <Navigate to="/unauthorized" replace />;
return children;
```
-/
def ProtectedRoute (auth : AuthValue) (allowedRoles : Option (List String)) : Element :=
  if auth.loading then
    Element.loadingIndicator
  else
    match auth.user with
    | none => Element.navigate "/login" true
    | some user =>
      match allowedRoles with
      | some roles =>
        if !(includes roles user.role) then Element.navigate "/unauthorized" true
        else Element.children
      | none => Element.children

/-- A user record with the given role and fixed other fields. -/
def userWithRole (role : Option String) : User :=
  { id := "u1", email := "u1@example.com", first_name := "U", last_name := "One",
    role := role, agency_id := none }

/-- The component `PublicRoute` of `App.js`.  The `switch` compares
`user.role` strictly with the three role names; the cases `agency_admin` and
`staff` share one branch and `default` is a branch of its own.
```
if (user) {
  switch (user.role) {
    case 'super_admin': return <Navigate to="/admin" replace />;
    case 'agency_admin':
    case 'staff': return <Navigate to="/dashboard" replace />;
    default: return <Navigate to="/dashboard" replace />;
  }
}
return children;
```
-/
def PublicRoute (auth : AuthValue) : Element :=
  match auth.user with
  | some user =>
    if user.role = some "super_admin" then
      Element.navigate "/admin" true
    else if user.role = some "agency_admin" ∨ user.role = some "staff" then
      Element.navigate "/dashboard" true
    else
      Element.navigate "/dashboard" true
  | none => Element.children

/-- The element of the route `/` in the `<Routes>` table of `App`:
`<Navigate to="/login" replace />`. -/
def rootRoute : Element := Element.navigate "/login" true

end App

namespace AuthContext

/-- The browser's `localStorage`: a store of string values under string keys. -/
abbrev LocalStorage := String → Option String

/-- The call `localStorage.getItem(key)`; `none` is `null`. -/
def getItem (storage : LocalStorage) (key : String) : Option String := storage key

/-- The store after a call `localStorage.setItem(key, value)` that the
browser accepts.  A call that exceeds the quota throws `QuotaExceededError`
and leaves the store as it was; in which of its writes an operation meets
that exception is part of the outcome it is given (see `Response`). -/
def setItem (storage : LocalStorage) (key value : String) : LocalStorage :=
  fun k => if k = key then some value else storage k

/-- The call `localStorage.removeItem(key)`. -/
def removeItem (storage : LocalStorage) (key : String) : LocalStorage :=
  fun k => if k = key then none else storage k

/-- The outcome of `JSON.parse(text)` as `load` distinguishes it: the call
throws, it returns a falsy value (`null`, `false`, `0`, `""`), or it returns a
truthy value, which the provider adopts as the user record. -/
inductive Parsed where
  | throws
  | falsy
  | value (userData : App.User)
deriving DecidableEq

/-- The two built-ins `JSON.parse` and `JSON.stringify`, which the provider
calls on the user record.  They belong to the platform, not to the
repository, and are a parameter of the operations below. -/
structure JSON where
  parse : String → Parsed
  stringify : App.User → String

/-- The call `JSON.parse(localStorage.getItem('user'))`: a missing item is
`null`, which `JSON.parse` converts to the text `null` and parses to `null`. -/
def parseItem (json : JSON) : Option String → Parsed
  | some text => json.parse text
  | none => Parsed.falsy

/-- The state the provider reads and writes: the persisted `localStorage`,
the shared header `axios.defaults.headers.common['Authorization']` (`none`
when unset), and the React state `user` and `loading`. -/
structure State where
  localStorage : LocalStorage
  authorization : Option String
  user : Option App.User
  loading : Bool

/-- The `user` and `loading` entries of the context `value`. -/
def value (s : State) : App.AuthValue := { user := s.user, loading := s.loading }

/-- A page reload: the persisted `localStorage` survives, while the module
state of axios and the React state start afresh (`useState(null)`,
`useState(true)`, no default header). -/
def reload (s : State) : State :=
  { localStorage := s.localStorage, authorization := none, user := none, loading := true }

/-- The mount effect of `AuthProvider` (the store's `load`):
```
const token = localStorage.getItem('token');
if (token) {
  axios.defaults.headers.common['Authorization'] = `Bearer ${token}`;
  try {
    const userData = JSON.parse(localStorage.getItem('user'));
    if (userData) { setUser(userData); }
  } catch (error) {
    localStorage.removeItem('token');
    localStorage.removeItem('user');
  }
}
setLoading(false);
```
The empty string is the one falsy token. -/
def load (json : JSON) (s : State) : State :=
  let afterToken : State :=
    match getItem s.localStorage "token" with
    | none => s
    | some token =>
      if token = "" then s
      else
        let s1 : State := { s with authorization := some ("Bearer " ++ token) }
        match parseItem json (getItem s1.localStorage "user") with
        | Parsed.value userData => { s1 with user := some userData }
        | Parsed.falsy => s1
        | Parsed.throws =>
          { s1 with localStorage := removeItem (removeItem s1.localStorage "token") "user" }
  { afterToken with loading := false }

/-- How the `try` block of `login` or `register` runs.  The awaited
`axios.post` rejects with an error whose `error.response?.data?.detail` is
`detail` (`none` for `undefined`), or it resolves with
`response.data = {token, user}`; in the second case the two writes to
`localStorage` that follow are both accepted (`resolved`), or
`setItem('token', ...)` throws `QuotaExceededError` (`tokenWriteThrows`), or
`setItem('token', ...)` is accepted and `setItem('user', ...)` throws it
(`userWriteThrows`). -/
inductive Response where
  | resolved (token : String) (user : App.User)
  | rejected (detail : Option String)
  | tokenWriteThrows (token : String) (user : App.User)
  | userWriteThrows (token : String) (user : App.User)
deriving DecidableEq

/-- The object returned by `login` and `register`: `{ success: true }` or
`{ success: false, error }`. -/
structure Result where
  success : Bool
  error : Option String
deriving DecidableEq

/-- The expression `error.response?.data?.detail || generic`: the detail when
it is a non-empty string, the generic message otherwise. -/
def errorMessage (detail : Option String) (generic : String) : String :=
  match detail with
  | some d => if d = "" then generic else d
  | none => generic

/-- The function `login`, given how its `try` block runs:
```
const response = await axios.post(...);
const { token, user: userData } = response.data;
localStorage.setItem('token', token);
localStorage.setItem('user', JSON.stringify(userData));
axios.defaults.headers.common['Authorization'] = `Bearer ${token}`;
setUser(userData);
return { success: true };
```
and in the `catch` branch
`return { success: false, error: error.response?.data?.detail || 'Login failed' }`.
The `catch` covers the two writes as well: a `QuotaExceededError` has no
`response`, so the message is the generic one, and whatever was written
before the exception stays written. -/
def login (json : JSON) (s : State) (response : Response) : State × Result :=
  match response with
  | Response.resolved token userData =>
    let storage1 := setItem s.localStorage "token" token
    let storage2 := setItem storage1 "user" (json.stringify userData)
    ({ localStorage := storage2, authorization := some ("Bearer " ++ token),
       user := some userData, loading := s.loading },
     { success := true, error := none })
  | Response.rejected detail =>
    (s, { success := false, error := some (errorMessage detail "Login failed") })
  | Response.tokenWriteThrows _ _ =>
    (s, { success := false, error := some (errorMessage none "Login failed") })
  | Response.userWriteThrows token _ =>
    let storage1 := setItem s.localStorage "token" token
    ({ s with localStorage := storage1 },
     { success := false, error := some (errorMessage none "Login failed") })

/-- The function `register`, given how its `try` block runs: the same
statements as `login`, with the generic message `Registration failed`. -/
def register (json : JSON) (s : State) (response : Response) : State × Result :=
  match response with
  | Response.resolved token newUser =>
    let storage1 := setItem s.localStorage "token" token
    let storage2 := setItem storage1 "user" (json.stringify newUser)
    ({ localStorage := storage2, authorization := some ("Bearer " ++ token),
       user := some newUser, loading := s.loading },
     { success := true, error := none })
  | Response.rejected detail =>
    (s, { success := false, error := some (errorMessage detail "Registration failed") })
  | Response.tokenWriteThrows _ _ =>
    (s, { success := false, error := some (errorMessage none "Registration failed") })
  | Response.userWriteThrows token _ =>
    let storage1 := setItem s.localStorage "token" token
    ({ s with localStorage := storage1 },
     { success := false, error := some (errorMessage none "Registration failed") })

/-- The function `logout`:
```
localStorage.removeItem('token');
localStorage.removeItem('user');
delete axios.defaults.headers.common['Authorization'];
setUser(null);
```
-/
def logout (s : State) : State :=
  { localStorage := removeItem (removeItem s.localStorage "token") "user",
    authorization := none, user := none, loading := s.loading }

/-- One operation of the provider, with the outcome of its remote call. -/
inductive Op where
  | load
  | login (response : Response)
  | register (response : Response)
  | logout
deriving DecidableEq

/-- The state after one operation. -/
def step (json : JSON) (s : State) : Op → State
  | Op.load => load json s
  | Op.login response => (login json s response).1
  | Op.register response => (register json s response).1
  | Op.logout => logout s

/-- The state after a sequence of operations, run from left to right. -/
def run (json : JSON) (s : State) (ops : List Op) : State :=
  ops.foldl (step json) s

/-- Lock-step of the two persisted keys: `token` and `user` are both present
or both absent. -/
def lockStep (storage : LocalStorage) : Prop :=
  (getItem storage "token").isSome = (getItem storage "user").isSome

/-- A string between double quotes, as `JSON.stringify` writes a string that
needs no escape. -/
def quoted (text : String) : String := "\"" ++ text ++ "\""

/-- The text `JSON.stringify` produces for a user record whose strings need
no escape: a missing `role` is left out, a missing `agency_id` is `null`. -/
def sampleStringify (u : App.User) : String :=
  "\x7b\"id\":" ++ quoted u.id ++ ",\"email\":" ++ quoted u.email
    ++ ",\"first_name\":" ++ quoted u.first_name ++ ",\"last_name\":" ++ quoted u.last_name
    ++ (match u.role with
        | some r => ",\"role\":" ++ quoted r
        | none => "")
    ++ ",\"agency_id\":"
    ++ (match u.agency_id with
        | some a => quoted a
        | none => "null")
    ++ "\x7d"

/-- The staff user of the examples. -/
def sampleUser : App.User := App.userWithRole (some "staff")

/-- A stand-in for the JSON built-ins in the examples.  It agrees with them
on the texts the examples store: the serialisation of `sampleUser` parses
back to it, the text `null` parses to `null`, and the other texts used
(which are not JSON) make `JSON.parse` throw. -/
def sampleJSON : JSON :=
  { parse := fun text =>
      if text = sampleStringify sampleUser then Parsed.value sampleUser
      else if text = "null" then Parsed.falsy
      else Parsed.throws,
    stringify := sampleStringify }

/-- An empty store on a fresh page: nothing persisted, no header, no user,
`loading` still true. -/
def emptyState : State :=
  { localStorage := fun _ => none, authorization := none, user := none, loading := true }

/-- A logged-out page whose origin has filled `localStorage` up to the quota
with other data, here under the key `catalogue`: a short value still fits
and a longer one does not. -/
def crowdedState : State :=
  { localStorage := fun k => if k = "catalogue" then some "cached listings" else none,
    authorization := none, user := none, loading := false }

/-- A fresh page over a store holding the given `token` and `user` items. -/
def persisted (token user : Option String) : State :=
  { localStorage := fun k => if k = "token" then token else if k = "user" then user else none,
    authorization := none, user := none, loading := true }

end AuthContext

namespace App

/-- The pages the route table of `App` mounts: the four components and the
two inline pages (access denied, page not found). -/
inductive Page where
  | PublicBooking
  | Login
  | SuperAdminDashboard
  | AgencyDashboard
  | accessDenied
  | pageNotFound
deriving DecidableEq

/-- The `element` prop of a `<Route>`: a page on its own, a page inside
`<PublicRoute>`, a page inside `<ProtectedRoute allowedRoles=...>`, or
`<Navigate to=... replace />`. -/
inductive RouteElement where
  | plain (page : Page)
  | publicRoute (page : Page)
  | protectedRoute (allowedRoles : List String) (page : Page)
  | redirect (path : String)
deriving DecidableEq

/-- What the router shows at a location: the loading indicator, a
navigation, or a page. -/
inductive Rendered where
  | loadingIndicator
  | navigate (path : String) (replace : Bool)
  | page (page : Page)
deriving DecidableEq

/-- The segments of a path, read from its characters; `acc` holds the
current segment in reverse.  Empty segments are dropped. -/
def segmentsAux : List Char → List Char → List String
  | [], acc => if acc = [] then [] else [String.mk acc.reverse]
  | c :: cs, acc =>
    if c = '/' then
      if acc = [] then segmentsAux cs [] else String.mk acc.reverse :: segmentsAux cs []
    else segmentsAux cs (c :: acc)

/-- The segments of a location path: `/dashboard/cars` has the segments
`dashboard` and `cars`, and `/` has none. -/
def segments (location : String) : List String := segmentsAux location.toList []

/-- The `<Routes>` table of `App`: the element of the route that matches a
location, with the paths compared as they are written in the table.
```
<Route path="/booking/:agencyId" element={<PublicBooking />} />
<Route path="/login" element={<PublicRoute><Login /></PublicRoute>} />
<Route path="/admin/*" element={
  <ProtectedRoute allowedRoles={['super_admin']}><SuperAdminDashboard /></ProtectedRoute>} />
<Route path="/dashboard/*" element={
  <ProtectedRoute allowedRoles={['agency_admin', 'staff']}><AgencyDashboard /></ProtectedRoute>} />
<Route path="/" element={<Navigate to="/login" replace />} />
<Route path="/unauthorized" element={<div>Access Denied</div>} />
<Route path="*" element={<div>Page Not Found</div>} />
```
-/
def routeFor (location : String) : RouteElement :=
  match segments location with
  | [] => RouteElement.redirect "/login"
  | first :: rest =>
    if first = "booking" ∧ rest.length = 1 then RouteElement.plain Page.PublicBooking
    else if first = "login" ∧ rest = [] then RouteElement.publicRoute Page.Login
    else if first = "admin" then
      RouteElement.protectedRoute ["super_admin"] Page.SuperAdminDashboard
    else if first = "dashboard" then
      RouteElement.protectedRoute ["agency_admin", "staff"] Page.AgencyDashboard
    else if first = "unauthorized" ∧ rest = [] then RouteElement.plain Page.accessDenied
    else RouteElement.plain Page.pageNotFound

/-- A guard around a page: where the guard returns its children, the page is
shown. -/
def guarded (guard : Element) (page : Page) : Rendered :=
  match guard with
  | Element.loadingIndicator => Rendered.loadingIndicator
  | Element.navigate path replace => Rendered.navigate path replace
  | Element.children => Rendered.page page

/-- What `App` shows at a location for a given auth context value. -/
def render (auth : AuthValue) (location : String) : Rendered :=
  match routeFor location with
  | RouteElement.plain page => Rendered.page page
  | RouteElement.publicRoute page => guarded (PublicRoute auth) page
  | RouteElement.protectedRoute allowedRoles page =>
    guarded (ProtectedRoute auth (some allowedRoles)) page
  | RouteElement.redirect path => Rendered.navigate path true

end App

namespace PublicBooking

/-- The initial `formData` of `BookingModal`, given the two clock readings
taken while the object is built: `new Date()` reads `now1` and
`Date.now()` reads `now2`.
```
pickup_date: new Date(),
return_date: new Date(Date.now() + 24 * 60 * 60 * 1000), // Tomorrow
```
-/
def initialFormData (now1 now2 : Int) : FormData :=
  { client_name := "", client_email := "", client_phone := "",
    pickup_date := some now1,
    return_date := some (now2 + 24 * 60 * 60 * 1000),
    pickup_location := "", return_location := "", message := "" }

/-- The request body `bookingData` of `handleSubmit`.  A date is sent as its
ISO-8601 text, represented by the time value it denotes. -/
structure BookingData where
  car_id : String
  client_name : String
  client_email : String
  client_phone : String
  pickup_date : Int
  return_date : Int
  pickup_location : String
  return_location : String
  message : String
deriving DecidableEq

/-- The object `bookingData` built in the `try` block of `handleSubmit`;
`none` when `toISOString()` is called on a `null` date and throws. -/
def bookingData (car : Car) (formData : FormData) : Option BookingData :=
  match formData.pickup_date, formData.return_date with
  | some pickup, some ret =>
    some { car_id := car.car_id,
           client_name := formData.client_name,
           client_email := formData.client_email,
           client_phone := formData.client_phone,
           pickup_date := pickup,
           return_date := ret,
           pickup_location := formData.pickup_location,
           return_location := formData.return_location,
           message := formData.message }
  | _, _ => none

/-- The outcome of `axios.post('/api/public/bookings', bookingData)`: it
resolves, or it rejects with an error whose `error.response?.data?.detail`
is `detail` (`none` for `undefined`). -/
inductive PostOutcome where
  | resolved
  | rejected (detail : Option String)
deriving DecidableEq

/-- The React state of `BookingModal`. -/
structure ModalState where
  formData : FormData
  loading : Bool
  success : Bool
  error : String
deriving DecidableEq

/-- The function `handleSubmit` of `BookingModal`, given the server's answer
`post` to a request body:
```
setLoading(true);
setError('');
try {
  const bookingData = { car_id: car.car_id, ..., pickup_date: formData.pickup_date.toISOString(), ... };
  await axios.post('/api/public/bookings', bookingData);
  setSuccess(true);
} catch (error) {
  setError(error.response?.data?.detail || 'Failed to create booking');
} finally {
  setLoading(false);
}
```
An exception thrown while the body is built has no `response`. -/
def handleSubmit (car : Car) (st : ModalState) (post : BookingData → PostOutcome) :
    ModalState :=
  let st1 : ModalState := { st with loading := true, error := "" }
  let st2 : ModalState :=
    match bookingData car st1.formData with
    | some data =>
      match post data with
      | PostOutcome.resolved => { st1 with success := true }
      | PostOutcome.rejected detail =>
        { st1 with error := AuthContext.errorMessage detail "Failed to create booking" }
    | none =>
      { st1 with error := AuthContext.errorMessage none "Failed to create booking" }
  { st2 with loading := false }

/-- The integer nearest to a rational, the even one of the two at a tie. -/
def roundHalfEven (q : ℚ) : Int :=
  let f := Int.floor q
  if q - f < 1 / 2 then f
  else if 1 / 2 < q - f then f + 1
  else if f % 2 = 0 then f else f + 1

/-- The double (IEEE 754 binary64) nearest to a rational, ties to even, with
the exponent range unbounded above: a value in the binade
`2 ^ e ≤ |x| < 2 ^ (e + 1)` is rounded to a multiple of `2 ^ (e - 52)`, and
below `2 ^ (-1022)` (subnormal numbers) to a multiple of `2 ^ (-1074)`. -/
def roundToDouble (x : ℚ) : ℚ :=
  if x = 0 then 0
  else
    let e : Int := max (Int.log 2 |x|) (-1022)
    let ulp : ℚ := 2 ^ (e - 52)
    (roundHalfEven (x / ulp) : ℚ) * ulp

/-- The JavaScript product `a * b` of two finite doubles, given by their
values: the exact product rounded to a double, and `none` when the rounded
magnitude reaches `2 ^ 1024` and the result is an infinity. -/
def multiplyDouble (a b : ℚ) : Option ℚ :=
  let r := roundToDouble (a * b)
  if |r| < 2 ^ 1024 then some r else none

/-- The constant `totalAmount` of `BookingModal` as the code computes it,
`calculateDays() * car.price_per_day` in double precision;
`car.price_per_day` holds the value of the price, a double, and the duration
is a whole number, which is a double as well. -/
def totalAmountDouble (formData : FormData) (car : Car) : Option ℚ :=
  multiplyDouble (calculateDays formData : ℚ) car.price_per_day

/-- The state of a `BookingModal` that has just been opened on a draft. -/
def openModal (formData : FormData) : ModalState :=
  { formData := formData, loading := false, success := false, error := "" }

end PublicBooking

/-! ## Booking arithmetic -/

namespace PublicBooking

/-- The ceiling of a quotient of integers by the length of a day, in integer
arithmetic. -/
theorem ceil_div_day (d : Int) :
    Int.ceil ((d : ℚ) / (1000 * 60 * 60 * 24)) = (d + 86399999) / 86400000 := by
  rw [Int.ceil_eq_iff]
  have hpos : (0 : ℚ) < 1000 * 60 * 60 * 24 := by norm_num
  have h1 := Int.ediv_add_emod (d + 86399999) 86400000
  have h2 := Int.emod_nonneg (d + 86399999) (by norm_num : (86400000 : Int) ≠ 0)
  have h3 := Int.emod_lt_of_pos (d + 86399999) (by norm_num : (0 : Int) < 86400000)
  constructor
  · rw [lt_div_iff₀ hpos]
    have hlt : (((d + 86399999) / 86400000 : Int) - 1) * 86400000 < d := by omega
    have h : ((((d + 86399999) / 86400000 : Int) : ℚ) - 1) * 86400000 < (d : ℚ) := by
      exact_mod_cast hlt
    linarith
  · rw [div_le_iff₀ hpos]
    have hle : d ≤ ((d + 86399999) / 86400000 : Int) * 86400000 := by omega
    have h : (d : ℚ) ≤ (((d + 86399999) / 86400000 : Int) : ℚ) * 86400000 := by
      exact_mod_cast hle
    linarith

/-- The value of `calculateDays` in integer arithmetic. -/
theorem calculateDays_eq (fd : FormData) :
    calculateDays fd =
      if (|newDate fd.return_date - newDate fd.pickup_date| + 86399999) / 86400000 = 0 then 1
      else (|newDate fd.return_date - newDate fd.pickup_date| + 86399999) / 86400000 := by
  simp only [calculateDays, ceil_div_day]

/-- The number of days computed by `calculateDays` is zero-free: the ceiling
of the quotient is zero exactly when the two instants coincide. -/
theorem ceil_abs_eq_zero_iff (p r : Int) :
    (|r - p| + 86399999) / 86400000 = 0 ↔ r = p := by
  have habs := abs_nonneg (r - p)
  constructor
  · intro h
    have h1 := Int.ediv_add_emod (|r - p| + 86399999) 86400000
    have h3 := Int.emod_lt_of_pos (|r - p| + 86399999) (by norm_num : (0 : Int) < 86400000)
    have h0 : |r - p| = 0 := by omega
    have := abs_eq_zero.mp h0
    omega
  · intro h
    subst h
    simp

/-- The value of `calculateDays` as a function of the distance between the
two instants: the integer ceiling of the distance over a day, at least 1. -/
theorem calculateDays_eq_max (fd : FormData) :
    calculateDays fd =
      max 1 ((|newDate fd.return_date - newDate fd.pickup_date| + 86399999) / 86400000) := by
  rw [calculateDays_eq]
  have habs := abs_nonneg (newDate fd.return_date - newDate fd.pickup_date)
  have h1 := Int.ediv_add_emod (|newDate fd.return_date - newDate fd.pickup_date| + 86399999)
    86400000
  have h3 := Int.emod_lt_of_pos (|newDate fd.return_date - newDate fd.pickup_date| + 86399999)
    (by norm_num : (0 : Int) < 86400000)
  have h2 := Int.emod_nonneg (|newDate fd.return_date - newDate fd.pickup_date| + 86399999)
    (by norm_num : (86400000 : Int) ≠ 0)
  split_ifs with h
  · rw [h]; rfl
  · rw [max_eq_right]
    omega

/-- The specification's `duration_days` in integer arithmetic. -/
theorem durationDaysSpec_eq (p r : Int) :
    durationDaysSpec p r =
      if (|r - p| + 86399999) / 86400000 = 0 then 1 else (|r - p| + 86399999) / 86400000 := by
  unfold durationDaysSpec
  have hc := ceil_div_day (|r - p|)
  have hn : ((1000 : ℚ) * 60 * 60 * 24) = 86400000 := by norm_num
  rw [hn] at hc
  push_cast at hc
  rw [hc]
  by_cases h : r = p
  · rw [if_pos h, if_pos ((ceil_abs_eq_zero_iff _ _).mpr h)]
  · rw [if_neg h, if_neg (fun h0 => h ((ceil_abs_eq_zero_iff _ _).mp h0))]

/-- C1: for every pair of pickup and return instants, `calculateDays` returns
the ceiling of the absolute difference between the return and the pickup
instant measured in days (milliseconds / 86,400,000) when the two differ, and
exactly 1 when they are identical; that is, it computes the specification's
`duration_days`. -/
theorem calculateDays_eq_durationDaysSpec (fd : FormData) :
    calculateDays fd = durationDaysSpec (newDate fd.pickup_date) (newDate fd.return_date) := by
  rw [calculateDays_eq, durationDaysSpec_eq]

/-- C2: for every pair of dates, inverted ranges included, `calculateDays`
returns a value greater than or equal to 1. -/
theorem calculateDays_ge_one (fd : FormData) : 1 ≤ calculateDays fd := by
  rw [calculateDays_eq_max]
  exact le_max_left _ _

/-- C3: when the pickup and the return date are identical (they denote the
same instant), `calculateDays` returns exactly 1. -/
theorem calculateDays_same_date (fd : FormData)
    (h : newDate fd.return_date = newDate fd.pickup_date) : calculateDays fd = 1 := by
  rw [calculateDays_eq, h]
  simp

/-- Witness for C3: a draft whose two dates are both 2024-06-01T00:00Z. -/
theorem calculateDays_same_date_witness :
    newDate (draft (some 1717200000000) (some 1717200000000)).return_date
        = newDate (draft (some 1717200000000) (some 1717200000000)).pickup_date
      ∧ calculateDays (draft (some 1717200000000) (some 1717200000000)) = 1 :=
  ⟨rfl, calculateDays_same_date (draft (some 1717200000000) (some 1717200000000)) rfl⟩

/-- C4 as stated fails: the two drafts below have their pickup instants on the
same UTC calendar day (2024-06-01, at 23:00 and at 00:00) and the same return
instant (2024-06-02T01:00Z), yet the first lasts 2 hours and is counted as 1
day while the second lasts 25 hours and is counted as 2 days. -/
theorem calculateDays_time_of_day_counterexample :
    calendarDay 0 (newDate (draft (some 1717282800000) (some 1717290000000)).pickup_date)
        = calendarDay 0 (newDate (draft (some 1717200000000) (some 1717290000000)).pickup_date)
      ∧ calendarDay 0 (newDate (draft (some 1717282800000) (some 1717290000000)).return_date)
        = calendarDay 0 (newDate (draft (some 1717200000000) (some 1717290000000)).return_date)
      ∧ calculateDays (draft (some 1717282800000) (some 1717290000000)) = 1
      ∧ calculateDays (draft (some 1717200000000) (some 1717290000000)) = 2
      ∧ calculateDays (draft (some 1717282800000) (some 1717290000000))
        ≠ calculateDays (draft (some 1717200000000) (some 1717290000000)) := by
  have h1 : calculateDays (draft (some 1717282800000) (some 1717290000000)) = 1 := by
    rw [calculateDays_eq]; simp [draft, newDate]
  have h2 : calculateDays (draft (some 1717200000000) (some 1717290000000)) = 2 := by
    rw [calculateDays_eq]; simp [draft, newDate]
  refine ⟨by simp [draft, newDate, calendarDay], rfl, h1, h2, ?_⟩
  rw [h1, h2]
  decide

/-- The value of `calculateDays` read off the calendar: 1 when both instants
fall on the same calendar day, and otherwise the number of calendar days
between them, plus one when the later instant falls at a later time of day
than the earlier one. -/
theorem calculateDays_by_calendar (tz : Int) (fd : FormData) :
    calculateDays fd =
      if calendarDay tz (newDate fd.return_date) = calendarDay tz (newDate fd.pickup_date) then 1
      else if calendarDay tz (newDate fd.pickup_date) < calendarDay tz (newDate fd.return_date) then
        (calendarDay tz (newDate fd.return_date) - calendarDay tz (newDate fd.pickup_date))
          + (if timeOfDay tz (newDate fd.pickup_date) < timeOfDay tz (newDate fd.return_date)
              then 1 else 0)
      else
        (calendarDay tz (newDate fd.pickup_date) - calendarDay tz (newDate fd.return_date))
          + (if timeOfDay tz (newDate fd.return_date) < timeOfDay tz (newDate fd.pickup_date)
              then 1 else 0) := by
  rw [calculateDays_eq_max]
  unfold calendarDay timeOfDay
  generalize newDate fd.return_date = R
  generalize newDate fd.pickup_date = P
  rcases abs_cases (R - P) with ⟨h, h0⟩ | ⟨h, h0⟩ <;> rw [h, max_def] <;> split_ifs <;> omega

/-- C4, amended: in any time zone at a fixed offset, two drafts whose pickup
instants fall on the same calendar day and whose return instants fall on the
same calendar day get the same duration if and only if the pickup day and the
return day coincide, or the later of the two instants falls at a later time
of day than the earlier one in both drafts or in neither. -/
theorem calculateDays_calendar_days_iff (tz : Int) (fd1 fd2 : FormData)
    (hp : calendarDay tz (newDate fd1.pickup_date) = calendarDay tz (newDate fd2.pickup_date))
    (hr : calendarDay tz (newDate fd1.return_date) = calendarDay tz (newDate fd2.return_date)) :
    calculateDays fd1 = calculateDays fd2 ↔
      (calendarDay tz (newDate fd1.return_date) = calendarDay tz (newDate fd1.pickup_date)
        ∨ (calendarDay tz (newDate fd1.pickup_date) < calendarDay tz (newDate fd1.return_date)
            ∧ (timeOfDay tz (newDate fd1.pickup_date) < timeOfDay tz (newDate fd1.return_date)
                ↔ timeOfDay tz (newDate fd2.pickup_date) < timeOfDay tz (newDate fd2.return_date)))
        ∨ (calendarDay tz (newDate fd1.return_date) < calendarDay tz (newDate fd1.pickup_date)
            ∧ (timeOfDay tz (newDate fd1.return_date) < timeOfDay tz (newDate fd1.pickup_date)
                ↔ timeOfDay tz (newDate fd2.return_date)
                    < timeOfDay tz (newDate fd2.pickup_date)))) := by
  rw [calculateDays_by_calendar tz fd1, calculateDays_by_calendar tz fd2, ← hp, ← hr]
  generalize calendarDay tz (newDate fd1.return_date) = cR
  generalize calendarDay tz (newDate fd1.pickup_date) = cP
  generalize timeOfDay tz (newDate fd1.return_date) = tR1
  generalize timeOfDay tz (newDate fd1.pickup_date) = tP1
  generalize timeOfDay tz (newDate fd2.return_date) = tR2
  generalize timeOfDay tz (newDate fd2.pickup_date) = tP2
  split_ifs <;> constructor <;> intro h <;> omega

/-- Witness for the amended C4: pickup on 2024-06-01 and return on 2024-06-03
(UTC), once from 23:00 to 01:00 and once from 10:00 to 10:00.  In neither
draft does the return fall at a later time of day than the pickup, and both
last 2 days. -/
theorem calculateDays_calendar_days_iff_witness :
    (calendarDay 0 (newDate (draft (some 1717282800000) (some 1717376400000)).pickup_date)
        = calendarDay 0 (newDate (draft (some 1717236000000) (some 1717408800000)).pickup_date)
      ∧ calendarDay 0 (newDate (draft (some 1717282800000) (some 1717376400000)).return_date)
        = calendarDay 0 (newDate (draft (some 1717236000000) (some 1717408800000)).return_date))
      ∧ calculateDays (draft (some 1717282800000) (some 1717376400000))
        = calculateDays (draft (some 1717236000000) (some 1717408800000)) :=
  have hp : calendarDay 0 (newDate (draft (some 1717282800000) (some 1717376400000)).pickup_date)
      = calendarDay 0 (newDate (draft (some 1717236000000) (some 1717408800000)).pickup_date) := by
    simp [draft, newDate, calendarDay]
  have hr : calendarDay 0 (newDate (draft (some 1717282800000) (some 1717376400000)).return_date)
      = calendarDay 0 (newDate (draft (some 1717236000000) (some 1717408800000)).return_date) := by
    simp [draft, newDate, calendarDay]
  ⟨⟨hp, hr⟩,
    (calculateDays_calendar_days_iff 0 _ _ hp hr).mpr
      (Or.inr (Or.inl (by simp [draft, newDate, calendarDay, timeOfDay])))⟩

/-- C5: `calculateDays` is symmetric in its two dates: exchanging the pickup
and the return date of a draft leaves the duration unchanged, so an inverted
range is charged like the corresponding forward range. -/
theorem calculateDays_symm (fd : FormData) (a b : Option Int) :
    calculateDays { fd with pickup_date := a, return_date := b }
      = calculateDays { fd with pickup_date := b, return_date := a } := by
  rw [calculateDays_eq, calculateDays_eq]
  simp only [abs_sub_comm (newDate b) (newDate a)]

/-- The rounding to the nearest integer is off by at most one half. -/
theorem roundHalfEven_abs_sub_le (q : ℚ) : |(roundHalfEven q : ℚ) - q| ≤ 1 / 2 := by
  unfold roundHalfEven
  have h1 := Int.floor_le q
  have h2 := Int.lt_floor_add_one q
  simp only
  split_ifs with ha hb hc
  · rw [abs_le]; constructor <;> linarith
  · push_cast; rw [abs_le]; constructor <;> linarith
  · rw [abs_le]; constructor <;> linarith
  · push_cast; rw [abs_le]; constructor <;> linarith

/-- An integer is its own nearest integer. -/
theorem roundHalfEven_intCast (n : Int) : roundHalfEven (n : ℚ) = n := by
  unfold roundHalfEven
  simp

/-- The rounding of a positive rational, in terms of its binade. -/
theorem roundToDouble_of_pos (x : ℚ) (hx : 0 < x) :
    roundToDouble x =
      (roundHalfEven (x / 2 ^ (max (Int.log 2 x) (-1022) - 52)) : ℚ)
        * 2 ^ (max (Int.log 2 x) (-1022) - 52) := by
  unfold roundToDouble
  rw [if_neg (ne_of_gt hx), abs_of_pos hx]

/-- The rounding to a double is off by at most half a unit in the last
place. -/
theorem roundToDouble_abs_sub_le (x : ℚ) (hx : 0 < x) :
    |roundToDouble x - x| ≤ 2 ^ (max (Int.log 2 x) (-1022) - 53) := by
  rw [roundToDouble_of_pos x hx]
  generalize max (Int.log 2 x) (-1022) = e
  have hu : (0 : ℚ) < 2 ^ (e - 52) := zpow_pos (by norm_num) _
  have hr := roundHalfEven_abs_sub_le (x / 2 ^ (e - 52))
  have hsplit : (roundHalfEven (x / 2 ^ (e - 52)) : ℚ) * 2 ^ (e - 52) - x
      = ((roundHalfEven (x / 2 ^ (e - 52)) : ℚ) - x / 2 ^ (e - 52)) * 2 ^ (e - 52) := by
    field_simp
  rw [hsplit, abs_mul, abs_of_pos hu]
  have hhalf : (2 : ℚ) ^ (e - 53) = 1 / 2 * 2 ^ (e - 52) := by
    have hsucc : e - 52 = (e - 53) + 1 := by ring
    rw [hsucc, zpow_add_one₀ (by norm_num : (2 : ℚ) ≠ 0)]
    ring
  rw [hhalf]
  exact mul_le_mul_of_nonneg_right hr (le_of_lt hu)

/-- The rounding to a double has a relative error of at most `2 ^ (-53)`,
and an absolute error of at most `2 ^ (-1075)` among the subnormal numbers. -/
theorem roundToDouble_error (x : ℚ) (hx : 0 < x) :
    |roundToDouble x - x| ≤ max (x / 2 ^ 53) (1 / 2 ^ 1075) := by
  refine le_trans (roundToDouble_abs_sub_le x hx) ?_
  rcases le_total (-1022 : Int) (Int.log 2 x) with h | h
  · rw [max_eq_left h]
    refine le_trans ?_ (le_max_left _ _)
    have hlog := Int.zpow_log_le_self (by norm_num : 1 < 2) hx
    have h2 : (2 : ℚ) ^ (Int.log 2 x - 53) = 2 ^ (Int.log 2 x) / 2 ^ 53 := by
      rw [zpow_sub₀ (by norm_num : (2 : ℚ) ≠ 0)]
      norm_num
    rw [h2]
    have hlog2 : (2 : ℚ) ^ Int.log 2 x ≤ x := by exact_mod_cast hlog
    exact div_le_div_of_nonneg_right hlog2 (by positivity)
  · rw [max_eq_right h]
    refine le_trans ?_ (le_max_right _ _)
    have hexp : (-1022 - 53 : Int) = -(1075 : ℕ) := by norm_num
    rw [hexp, zpow_neg, zpow_natCast]
    norm_num

/-- A natural number below `2 ^ 53` is a double. -/
theorem roundToDouble_natCast (n : ℕ) (hlt : n < 2 ^ 53) : roundToDouble (n : ℚ) = n := by
  rcases Nat.eq_zero_or_pos n with h0 | hpos
  · subst h0; simp [roundToDouble]
  · have hx : (0 : ℚ) < n := by exact_mod_cast hpos
    rw [roundToDouble_of_pos _ hx, Int.log_natCast]
    have hlog : Nat.log 2 n < 53 := Nat.log_lt_of_lt_pow (by omega) hlt
    have hmax : max (Nat.log 2 n : Int) (-1022) = (Nat.log 2 n : Int) := by
      apply max_eq_left; omega
    rw [hmax]
    obtain ⟨k, hk⟩ : ∃ k : ℕ, (Nat.log 2 n : Int) - 52 = -(k : Int) :=
      ⟨52 - Nat.log 2 n, by omega⟩
    rw [hk, zpow_neg, zpow_natCast]
    have hpow : (0 : ℚ) < 2 ^ k := by positivity
    have hint : (n : ℚ) / (2 ^ k)⁻¹ = ((n * 2 ^ k : Int) : ℚ) := by
      push_cast
      field_simp
    rw [hint, roundHalfEven_intCast]
    push_cast
    field_simp

/-- The rounding of a positive rational whose binade is known. -/
theorem roundToDouble_of_binade (x : ℚ) (e : Int) (hx : 0 < x)
    (h1 : (2 : ℚ) ^ e ≤ x) (h2 : x < 2 ^ (e + 1)) (he : -1022 ≤ e) :
    roundToDouble x = (roundHalfEven (x / 2 ^ (e - 52)) : ℚ) * 2 ^ (e - 52) := by
  have hlog : Int.log 2 x = e := by
    apply le_antisymm
    · have hlt := (Int.lt_zpow_iff_log_lt (by norm_num : 1 < 2) hx).mp (by exact_mod_cast h2)
      omega
    · exact (Int.zpow_le_iff_le_log (by norm_num : 1 < 2) hx).mp (by exact_mod_cast h1)
  rw [roundToDouble_of_pos x hx, hlog, max_eq_left he]

/-- The double product of 7 and the double nearest to 29.99. -/
theorem roundToDouble_seven_times_price :
    roundToDouble (7 * (8441434551552573 / 281474976710656))
      = 7386255232608501 / 35184372088832 := by
  rw [roundToDouble_of_binade _ 7 (by norm_num) (by norm_num) (by norm_num) (by norm_num)]
  have hf : roundHalfEven (7 * (8441434551552573 / 281474976710656) / 2 ^ ((7 : Int) - 52))
      = 7386255232608501 := by
    have hq : (7 * (8441434551552573 / 281474976710656) / 2 ^ ((7 : Int) - 52) : ℚ)
        = 59090041860868011 / 8 := by
      norm_num [zpow_neg]
    rw [hq]
    unfold roundHalfEven
    have hfl : Int.floor (59090041860868011 / 8 : ℚ) = 7386255232608501 := by
      rw [Int.floor_eq_iff]; norm_num
    simp only [hfl]
    norm_num
  rw [hf]
  norm_num [zpow_neg]

/-- C6 as stated fails in double precision: for a 7-day draft and a car whose
price is the double nearest to 29.99, the code's total is the double
209.92999999999998 (7386255232608501 / 2^45), which is not the exact product
of the duration and the price (59090041860868011 / 2^48). -/
theorem totalAmountDouble_inexact_counterexample :
    calculateDays (draft (some 1717200000000) (some 1717804800000)) = 7
      ∧ totalAmountDouble (draft (some 1717200000000) (some 1717804800000))
          { car_id := "c1", title := "Compact",
            price_per_day := 8441434551552573 / 281474976710656 }
        = some (7386255232608501 / 35184372088832)
      ∧ totalAmountDouble (draft (some 1717200000000) (some 1717804800000))
          { car_id := "c1", title := "Compact",
            price_per_day := 8441434551552573 / 281474976710656 }
        ≠ some ((calculateDays (draft (some 1717200000000) (some 1717804800000)) : ℚ)
            * (8441434551552573 / 281474976710656)) := by
  have h7 : calculateDays (draft (some 1717200000000) (some 1717804800000)) = 7 := by
    rw [calculateDays_eq]; simp [draft, newDate]
  have ht : totalAmountDouble (draft (some 1717200000000) (some 1717804800000))
      { car_id := "c1", title := "Compact",
        price_per_day := 8441434551552573 / 281474976710656 }
      = some (7386255232608501 / 35184372088832) := by
    unfold totalAmountDouble multiplyDouble
    rw [h7]
    push_cast
    rw [roundToDouble_seven_times_price]
    have hfinite : |(7386255232608501 / 35184372088832 : ℚ)| < 2 ^ 1024 := by
      rw [abs_of_pos (by norm_num)]
      norm_num
    simp only [if_pos hfinite]
  refine ⟨h7, ht, ?_⟩
  rw [ht, h7]
  norm_num

/-- C6, amended: for every draft and every car with a positive
`price_per_day` (and a total within the range of the doubles), `totalAmount`
is the product of `calculateDays()` and `car.price_per_day` in double
precision: the specification's `total_amount` rounded once to the nearest
double, so within a relative error of `2 ^ (-53)` (an absolute error of
`2 ^ (-1075)` for subnormal totals) of the exact product, with no fee or
discount; and it is the exact product for every whole-number price with a
total below `2 ^ 53`. -/
theorem totalAmountDouble_rounded_product (fd : FormData) (car : Car)
    (hprice : 0 < car.price_per_day)
    (hrange : (calculateDays fd : ℚ) * car.price_per_day < 2 ^ 1023) :
    totalAmountDouble fd car
        = some (roundToDouble
            (totalAmountSpec (newDate fd.pickup_date) (newDate fd.return_date)
              car.price_per_day))
      ∧ |roundToDouble ((calculateDays fd : ℚ) * car.price_per_day)
            - (calculateDays fd : ℚ) * car.price_per_day|
          ≤ max ((calculateDays fd : ℚ) * car.price_per_day / 2 ^ 53) (1 / 2 ^ 1075)
      ∧ ∀ n : ℕ, car.price_per_day = n → (calculateDays fd : ℚ) * n < 2 ^ 53 →
          totalAmountDouble fd car = some ((calculateDays fd : ℚ) * car.price_per_day) := by
  have hdays : (1 : ℚ) ≤ (calculateDays fd : ℚ) := by
    have h1 : 1 ≤ calculateDays fd := by
      rw [calculateDays_eq_max]; exact le_max_left _ _
    exact_mod_cast h1
  have hx : 0 < (calculateDays fd : ℚ) * car.price_per_day :=
    mul_pos (lt_of_lt_of_le one_pos hdays) hprice
  have herr := roundToDouble_error _ hx
  have hfinite : |roundToDouble ((calculateDays fd : ℚ) * car.price_per_day)| < 2 ^ 1024 := by
    have hmax : max ((calculateDays fd : ℚ) * car.price_per_day / 2 ^ 53) (1 / 2 ^ 1075)
        < 2 ^ 1023 := by
      apply max_lt
      · have hle : (calculateDays fd : ℚ) * car.price_per_day / 2 ^ 53
            ≤ (calculateDays fd : ℚ) * car.price_per_day :=
          div_le_self (le_of_lt hx) (by norm_num)
        exact lt_of_le_of_lt hle hrange
      · norm_num
    have habs := abs_sub_abs_le_abs_sub
      (roundToDouble ((calculateDays fd : ℚ) * car.price_per_day))
      ((calculateDays fd : ℚ) * car.price_per_day)
    rw [abs_of_pos hx] at habs
    have hsum : (2 : ℚ) ^ 1023 + 2 ^ 1023 = 2 ^ 1024 := by norm_num
    linarith
  have htotal : totalAmountDouble fd car
      = some (roundToDouble ((calculateDays fd : ℚ) * car.price_per_day)) := by
    unfold totalAmountDouble multiplyDouble
    simp only [if_pos hfinite]
  have hspec : totalAmountSpec (newDate fd.pickup_date) (newDate fd.return_date)
      car.price_per_day = (calculateDays fd : ℚ) * car.price_per_day := by
    unfold totalAmountSpec
    rw [calculateDays_eq, durationDaysSpec_eq]
  refine ⟨by rw [htotal, hspec], herr, ?_⟩
  intro n hn hlt
  rw [htotal]
  obtain ⟨m, hm⟩ := Int.eq_ofNat_of_zero_le
    (le_trans (by norm_num : (0 : Int) ≤ 1)
      (by rw [calculateDays_eq_max]; exact le_max_left _ _ : 1 ≤ calculateDays fd))
  rw [hm] at hlt
  rw [hn, hm]
  have hcast : ((m : Int) : ℚ) * (n : ℚ) = ((m * n : ℕ) : ℚ) := by push_cast; ring
  rw [hcast] at hlt ⊢
  have hnat : m * n < 2 ^ 53 := by exact_mod_cast hlt
  rw [roundToDouble_natCast _ hnat]

/-- Witness for the amended C6: a three-day rental (2024-06-01 to
2024-06-04) of a car priced 45 per day; the total is the exact product. -/
theorem totalAmountDouble_rounded_product_witness :
    ((0 : ℚ) < 45
        ∧ (calculateDays (draft (some 1717200000000) (some 1717459200000)) : ℚ) * 45
          < 2 ^ 1023)
      ∧ totalAmountDouble (draft (some 1717200000000) (some 1717459200000))
          { car_id := "c1", title := "Compact", price_per_day := 45 }
        = some ((calculateDays (draft (some 1717200000000) (some 1717459200000)) : ℚ) * 45) :=
  have h3 : calculateDays (draft (some 1717200000000) (some 1717459200000)) = 3 := by
    rw [calculateDays_eq]; simp [draft, newDate]
  have hrange : (calculateDays (draft (some 1717200000000) (some 1717459200000)) : ℚ) * 45
      < 2 ^ 1023 := by
    rw [h3]; norm_num
  have h53 : (calculateDays (draft (some 1717200000000) (some 1717459200000)) : ℚ)
      * ((45 : ℕ) : ℚ) < 2 ^ 53 := by
    rw [h3]; norm_num
  ⟨⟨by norm_num, hrange⟩,
    (totalAmountDouble_rounded_product (draft (some 1717200000000) (some 1717459200000))
      { car_id := "c1", title := "Compact", price_per_day := 45 }
      (by norm_num) hrange).2.2 45 (by norm_num) h53⟩

/-- C7: with `price_per_day` 45.00, pickup 2024-06-01 and return 2024-06-01
give duration 1 and total 45.00, and pickup 2024-06-01 and return 2024-06-03
give duration 2 and total 90.00.  The dates are taken at `t` milliseconds
after midnight UTC, the same for pickup and return (1717200000000 is
2024-06-01T00:00Z and 1717372800000 is 2024-06-03T00:00Z). -/
theorem booking_scenario_june_2024 (t : Int) (car_id title : String) :
    calculateDays (draft (some (1717200000000 + t)) (some (1717200000000 + t))) = 1
      ∧ totalAmount (draft (some (1717200000000 + t)) (some (1717200000000 + t)))
          { car_id := car_id, title := title, price_per_day := 45 } = 45
      ∧ calculateDays (draft (some (1717200000000 + t)) (some (1717372800000 + t))) = 2
      ∧ totalAmount (draft (some (1717200000000 + t)) (some (1717372800000 + t)))
          { car_id := car_id, title := title, price_per_day := 45 } = 90 := by
  have h1 : calculateDays (draft (some (1717200000000 + t)) (some (1717200000000 + t))) = 1 := by
    rw [calculateDays_eq]; simp [draft, newDate]
  have h2 : calculateDays (draft (some (1717200000000 + t)) (some (1717372800000 + t))) = 2 := by
    rw [calculateDays_eq]
    have hd : (1717372800000 + t) - (1717200000000 + t) = 172800000 := by ring
    simp [draft, newDate, hd]
  refine ⟨h1, ?_, h2, ?_⟩
  · unfold totalAmount; rw [h1]; norm_num
  · unfold totalAmount; rw [h2]; norm_num

end PublicBooking

/-! ## Route guard -/

namespace App

/-- Membership of `user.role` in `allowedRoles`, as the specification words
it: the role is present and is one of the allowed roles. -/
theorem includes_iff (allowedRoles : List String) (role : Option String) :
    includes allowedRoles role = true ↔ ∃ r, role = some r ∧ r ∈ allowedRoles := by
  cases role with
  | none => simp [includes]
  | some r => simp [includes]

/-- C8: `ProtectedRoute` never redirects while the session is loading: for
every user value, present or absent, and every `allowedRoles`, when `loading`
is true the outcome is the loading indicator; it is no navigation (to
`/login`, `/unauthorized` or anywhere else) and not the protected subtree. -/
theorem ProtectedRoute_loading (user : Option User) (allowedRoles : Option (List String)) :
    ProtectedRoute { user := user, loading := true } allowedRoles = Element.loadingIndicator
      ∧ (∀ path replace, ProtectedRoute { user := user, loading := true } allowedRoles
          ≠ Element.navigate path replace)
      ∧ ProtectedRoute { user := user, loading := true } allowedRoles ≠ Element.children := by
  have h : ProtectedRoute { user := user, loading := true } allowedRoles
      = Element.loadingIndicator := by
    simp [ProtectedRoute]
  rw [h]
  exact ⟨rfl, fun _ _ hn => Element.noConfusion hn, fun hc => Element.noConfusion hc⟩

/-- C9: for every `allowedRoles`, when `loading` is false and there is no
user, `ProtectedRoute` redirects to `/login`; it renders neither the protected
subtree nor a redirect to the unauthorized view. -/
theorem ProtectedRoute_unauthenticated (allowedRoles : Option (List String)) :
    ProtectedRoute { user := none, loading := false } allowedRoles
        = Element.navigate "/login" true
      ∧ ProtectedRoute { user := none, loading := false } allowedRoles ≠ Element.children
      ∧ (∀ replace, ProtectedRoute { user := none, loading := false } allowedRoles
          ≠ Element.navigate "/unauthorized" replace) := by
  have h : ProtectedRoute { user := none, loading := false } allowedRoles
      = Element.navigate "/login" true := by
    simp [ProtectedRoute]
  rw [h]
  refine ⟨rfl, fun hc => Element.noConfusion hc, fun replace hn => ?_⟩
  have hp : "/login" = "/unauthorized" := (Element.navigate.inj hn).1
  exact absurd hp (by decide)

/-- C10: for every authenticated user (`loading` false, user present) and
every supplied `allowedRoles`, `ProtectedRoute` renders the protected subtree
if and only if `user.role` is a member of `allowedRoles`, and redirects to
`/unauthorized` if and only if it is not; it never redirects to `/login`.  In
particular any user whose role is `staff` lands on `/unauthorized` on the
admin-only route `['super_admin']`. -/
theorem ProtectedRoute_authenticated (user : User) (allowedRoles : List String) :
    (ProtectedRoute { user := some user, loading := false } (some allowedRoles)
        = Element.children ↔ ∃ r, user.role = some r ∧ r ∈ allowedRoles)
      ∧ (ProtectedRoute { user := some user, loading := false } (some allowedRoles)
        = Element.navigate "/unauthorized" true ↔ ¬ ∃ r, user.role = some r ∧ r ∈ allowedRoles)
      ∧ (∀ replace, ProtectedRoute { user := some user, loading := false } (some allowedRoles)
          ≠ Element.navigate "/login" replace)
      ∧ ProtectedRoute { user := some { user with role := some "staff" }, loading := false }
          (some ["super_admin"]) = Element.navigate "/unauthorized" true := by
  rw [← includes_iff]
  refine ⟨?_, ?_, ?_, ?_⟩
  · cases hinc : includes allowedRoles user.role <;> simp [ProtectedRoute, hinc]
  · cases hinc : includes allowedRoles user.role <;> simp [ProtectedRoute, hinc]
  · intro replace
    cases hinc : includes allowedRoles user.role <;> simp [ProtectedRoute, hinc]
  · simp [ProtectedRoute, includes]

end App

/-! ## Public route and history replacement -/

namespace App

/-- The outcome of `PublicRoute` for a present user, by role. -/
theorem PublicRoute_some (user : User) (loading : Bool) :
    PublicRoute { user := some user, loading := loading }
      = if user.role = some "super_admin" then Element.navigate "/admin" true
        else Element.navigate "/dashboard" true := by
  unfold PublicRoute
  by_cases h : user.role = some "super_admin"
  · simp [h]
  · simp only [h, if_false]
    split_ifs <;> rfl

/-- C11: for every authenticated user whose role is `super_admin`,
`PublicRoute` redirects to the admin root `/admin` (replacing the history
entry) and does not render its children, the login form. -/
theorem PublicRoute_super_admin (user : User) (loading : Bool) :
    PublicRoute { user := some { user with role := some "super_admin" }, loading := loading }
        = Element.navigate "/admin" true
      ∧ PublicRoute { user := some { user with role := some "super_admin" }, loading := loading }
        ≠ Element.children := by
  have h : PublicRoute
      { user := some { user with role := some "super_admin" }, loading := loading }
      = Element.navigate "/admin" true := by
    rw [PublicRoute_some]
    simp
  rw [h]
  exact ⟨rfl, fun hc => Element.noConfusion hc⟩

/-- C12: for every authenticated user whose role is anything other than
`super_admin` (`agency_admin`, `staff`, an unknown role or a missing one),
`PublicRoute` redirects to the agency dashboard root `/dashboard`; it neither
renders the login form nor sends the user to `/unauthorized` or `/login`. -/
theorem PublicRoute_other_roles (user : User) (loading : Bool)
    (hrole : user.role ≠ some "super_admin") :
    PublicRoute { user := some user, loading := loading } = Element.navigate "/dashboard" true
      ∧ PublicRoute { user := some user, loading := loading } ≠ Element.children
      ∧ (∀ replace, PublicRoute { user := some user, loading := loading }
          ≠ Element.navigate "/unauthorized" replace)
      ∧ (∀ replace, PublicRoute { user := some user, loading := loading }
          ≠ Element.navigate "/login" replace) := by
  have h : PublicRoute { user := some user, loading := loading }
      = Element.navigate "/dashboard" true := by
    rw [PublicRoute_some, if_neg hrole]
  rw [h]
  refine ⟨rfl, fun hc => Element.noConfusion hc, fun replace hn => ?_, fun replace hn => ?_⟩
  · have hp : "/dashboard" = "/unauthorized" := (Element.navigate.inj hn).1
    exact absurd hp (by decide)
  · have hp : "/dashboard" = "/login" := (Element.navigate.inj hn).1
    exact absurd hp (by decide)

/-- Witness for C12: a user whose role is the unknown value `guest`. -/
theorem PublicRoute_other_roles_witness :
    (userWithRole (some "guest")).role ≠ some "super_admin"
      ∧ PublicRoute { user := some (userWithRole (some "guest")), loading := false }
        = Element.navigate "/dashboard" true :=
  ⟨by decide,
    (PublicRoute_other_roles (userWithRole (some "guest")) false (by decide)).1⟩

/-- C13: every redirect produced by `ProtectedRoute`, by `PublicRoute` and by
the root route `/` replaces the history entry: for every session state, role
and `allowedRoles`, none of them is a `<Navigate>` without `replace`. -/
theorem redirects_replace_history (auth : AuthValue) (allowedRoles : Option (List String))
    (path : String) :
    ProtectedRoute auth allowedRoles ≠ Element.navigate path false
      ∧ PublicRoute auth ≠ Element.navigate path false
      ∧ rootRoute ≠ Element.navigate path false := by
  refine ⟨?_, ?_, ?_⟩
  · unfold ProtectedRoute
    intro h
    split_ifs at h
    split at h
    · exact absurd (Element.navigate.inj h).2 (by decide)
    · split at h
      · split_ifs at h
        · exact absurd (Element.navigate.inj h).2 (by decide)
      · exact Element.noConfusion h
  · obtain ⟨user, loading⟩ := auth
    cases user with
    | none => intro h; simp [PublicRoute] at h
    | some u =>
      rw [PublicRoute_some]
      intro h
      split_ifs at h <;> exact absurd (Element.navigate.inj h).2 (by decide)
  · intro h
    exact absurd (Element.navigate.inj h).2 (by decide)

end App

/-! ## Session store -/

namespace AuthContext

/-- The effect `load` always ends with `loading` false. -/
theorem load_loading (json : JSON) (s : State) : (load json s).loading = false := rfl

/-- The effect `load` when the token is absent: only `loading` changes. -/
theorem load_of_token_none (json : JSON) (s : State)
    (htoken : getItem s.localStorage "token" = none) :
    load json s = { s with loading := false } := by
  simp only [load, htoken]

/-- The effect `load` when the token is the empty string: only `loading`
changes. -/
theorem load_of_token_empty (json : JSON) (s : State)
    (htoken : getItem s.localStorage "token" = some "") :
    load json s = { s with loading := false } := by
  simp only [load, htoken, if_true]

/-- The effect `load` when the token is non-empty and parsing the user record
throws: the header is set and both keys are removed. -/
theorem load_of_throws (json : JSON) (s : State) (token : String)
    (htoken : getItem s.localStorage "token" = some token) (hne : token ≠ "")
    (hparse : parseItem json (getItem s.localStorage "user") = Parsed.throws) :
    load json s =
      { localStorage := removeItem (removeItem s.localStorage "token") "user",
        authorization := some ("Bearer " ++ token), user := s.user, loading := false } := by
  simp only [load, htoken, if_neg hne, hparse]

/-- The effect `load` when the token is non-empty and the user record parses
to a falsy value: only the header and `loading` change. -/
theorem load_of_falsy (json : JSON) (s : State) (token : String)
    (htoken : getItem s.localStorage "token" = some token) (hne : token ≠ "")
    (hparse : parseItem json (getItem s.localStorage "user") = Parsed.falsy) :
    load json s =
      { localStorage := s.localStorage,
        authorization := some ("Bearer " ++ token), user := s.user, loading := false } := by
  simp only [load, htoken, if_neg hne, hparse]

/-- The effect `load` when the token is non-empty and the user record parses
to a user value: the header is set and the value becomes the user. -/
theorem load_of_value (json : JSON) (s : State) (token : String) (userData : App.User)
    (htoken : getItem s.localStorage "token" = some token) (hne : token ≠ "")
    (hparse : parseItem json (getItem s.localStorage "user") = Parsed.value userData) :
    load json s =
      { localStorage := s.localStorage,
        authorization := some ("Bearer " ++ token), user := some userData,
        loading := false } := by
  simp only [load, htoken, if_neg hne, hparse]

/-- Reading a key that was just written. -/
theorem getItem_setItem_same (storage : LocalStorage) (key value : String) :
    getItem (setItem storage key value) key = some value := by
  simp [getItem, setItem]

/-- Reading a key other than the one just written. -/
theorem getItem_setItem_other (storage : LocalStorage) (key value k : String) (h : k ≠ key) :
    getItem (setItem storage key value) k = getItem storage k := by
  simp [getItem, setItem, h]

/-- Reading a key that was just removed. -/
theorem getItem_removeItem_same (storage : LocalStorage) (key : String) :
    getItem (removeItem storage key) key = none := by
  simp [getItem, removeItem]

/-- Reading a key other than the one just removed. -/
theorem getItem_removeItem_other (storage : LocalStorage) (key k : String) (h : k ≠ key) :
    getItem (removeItem storage key) k = getItem storage k := by
  simp [getItem, removeItem, h]

/-- After the two `removeItem` calls of `logout` and of the `catch` branch
of `load`, neither key is persisted. -/
theorem getItem_removed_both (storage : LocalStorage) :
    getItem (removeItem (removeItem storage "token") "user") "token" = none
      ∧ getItem (removeItem (removeItem storage "token") "user") "user" = none := by
  constructor
  · rw [getItem_removeItem_other _ _ _ (by decide), getItem_removeItem_same]
  · rw [getItem_removeItem_same]

/-- After the two `setItem` calls of `login` and `register`, both keys hold
the values written. -/
theorem getItem_written_both (storage : LocalStorage) (token text : String) :
    getItem (setItem (setItem storage "token" token) "user" text) "token" = some token
      ∧ getItem (setItem (setItem storage "token" token) "user" text) "user" = some text := by
  constructor
  · rw [getItem_setItem_other _ _ _ _ (by decide), getItem_setItem_same]
  · rw [getItem_setItem_same]

/-- The state after a successful `login`. -/
theorem login_resolved (json : JSON) (s : State) (token : String) (user : App.User) :
    (login json s (Response.resolved token user)).1 =
      { localStorage := setItem (setItem s.localStorage "token" token) "user"
          (json.stringify user),
        authorization := some ("Bearer " ++ token), user := some user,
        loading := s.loading } := rfl

/-- What one operation does to the persisted keys: it leaves the store as it
was, or it leaves both keys written, or it leaves both keys removed; the one
exception is a `login` or `register` whose write of the user record is
rejected after the token was written. -/
theorem step_storage (json : JSON) (s : State) (op : Op)
    (hop : ∀ token user, op ≠ Op.login (Response.userWriteThrows token user)
      ∧ op ≠ Op.register (Response.userWriteThrows token user)) :
    (step json s op).localStorage = s.localStorage
      ∨ ((getItem (step json s op).localStorage "token").isSome = true
          ∧ (getItem (step json s op).localStorage "user").isSome = true)
      ∨ (getItem (step json s op).localStorage "token" = none
          ∧ getItem (step json s op).localStorage "user" = none) := by
  cases op with
  | load =>
    simp only [step]
    cases htoken : getItem s.localStorage "token" with
    | none => left; rw [load_of_token_none json s htoken]
    | some token =>
      by_cases hne : token = ""
      · subst hne
        left; rw [load_of_token_empty json s htoken]
      · cases hparse : parseItem json (getItem s.localStorage "user") with
        | throws =>
          right; right
          rw [load_of_throws json s token htoken hne hparse]
          exact getItem_removed_both s.localStorage
        | falsy => left; rw [load_of_falsy json s token htoken hne hparse]
        | value userData => left; rw [load_of_value json s token userData htoken hne hparse]
  | login response =>
    cases response with
    | resolved token user =>
      right; left
      simp only [step, login]
      have h := getItem_written_both s.localStorage token (json.stringify user)
      rw [h.1, h.2]
      exact ⟨rfl, rfl⟩
    | rejected detail => left; rfl
    | tokenWriteThrows token user => left; rfl
    | userWriteThrows token user => exact absurd rfl (hop token user).1
  | register response =>
    cases response with
    | resolved token user =>
      right; left
      simp only [step, register]
      have h := getItem_written_both s.localStorage token (json.stringify user)
      rw [h.1, h.2]
      exact ⟨rfl, rfl⟩
    | rejected detail => left; rfl
    | tokenWriteThrows token user => left; rfl
    | userWriteThrows token user => exact absurd rfl (hop token user).2
  | logout =>
    right; right
    exact getItem_removed_both s.localStorage

/-- Every operation other than a `login` or `register` whose write of the
user record is rejected preserves the lock-step of the two persisted keys. -/
theorem lockStep_step (json : JSON) (s : State) (op : Op)
    (hop : ∀ token user, op ≠ Op.login (Response.userWriteThrows token user)
      ∧ op ≠ Op.register (Response.userWriteThrows token user))
    (h : lockStep s.localStorage) :
    lockStep (step json s op).localStorage := by
  rcases step_storage json s op hop with hsame | ⟨ht, hu⟩ | ⟨ht, hu⟩
  · rw [hsame]; exact h
  · unfold lockStep; rw [ht, hu]
  · unfold lockStep; rw [ht, hu]

/-- A sequence of operations none of which is a `login` or `register` whose
write of the user record is rejected preserves the lock-step of the two
persisted keys. -/
theorem lockStep_run_of_accepted_writes (json : JSON) (s : State) (ops : List Op)
    (hops : ∀ op ∈ ops, ∀ token user, op ≠ Op.login (Response.userWriteThrows token user)
      ∧ op ≠ Op.register (Response.userWriteThrows token user))
    (h : lockStep s.localStorage) :
    lockStep (run json s ops).localStorage := by
  induction ops generalizing s with
  | nil => exact h
  | cons op ops ih =>
    simp only [run, List.foldl_cons]
    exact ih (step json s op)
      (fun o ho => hops o (List.mem_cons_of_mem _ ho))
      (lockStep_step json s op (hops op (List.mem_cons_self _ _)) h)

/-- C14 as stated fails for the empty token: `login` persists it together
with the serialised user, and after a reload `load` takes the empty string
for an absent token and restores no user, although the serialised user
parses back to the original. -/
theorem session_round_trip_empty_token_counterexample :
    sampleJSON.parse (sampleJSON.stringify sampleUser) = Parsed.value sampleUser
      ∧ getItem (login sampleJSON emptyState (Response.resolved "" sampleUser)).1.localStorage
          "token" = some ""
      ∧ (load sampleJSON
          (reload (login sampleJSON emptyState (Response.resolved "" sampleUser)).1)).user
        = none := by
  decide

/-- C14, amended: for every non-empty token and every user profile that
`JSON.parse` reads back from its `JSON.stringify` text, the persisted state
written by a successful `login`, followed by a reload that runs `load` on a
fresh store, yields an authenticated state whose user is the original user
(with `loading` false and the header set to the token). -/
theorem session_round_trip (json : JSON) (s : State) (token : String) (user : App.User)
    (htoken : token ≠ "")
    (hjson : json.parse (json.stringify user) = Parsed.value user) :
    (load json (reload (login json s (Response.resolved token user)).1)).user = some user
      ∧ (load json (reload (login json s (Response.resolved token user)).1)).loading = false
      ∧ (load json (reload (login json s (Response.resolved token user)).1)).authorization
        = some ("Bearer " ++ token) := by
  have hw := getItem_written_both s.localStorage token (json.stringify user)
  have hl := load_of_value json (reload (login json s (Response.resolved token user)).1)
    token user
    (by rw [login_resolved]; exact hw.1) htoken
    (by rw [login_resolved]; simp only [reload]; rw [hw.2]; exact hjson)
  rw [hl]
  exact ⟨rfl, rfl, rfl⟩

/-- Witness for the amended C14: the sample user logs in with token `abc`. -/
theorem session_round_trip_witness :
    ("abc" ≠ "" ∧ sampleJSON.parse (sampleJSON.stringify sampleUser) = Parsed.value sampleUser)
      ∧ (load sampleJSON
          (reload (login sampleJSON emptyState (Response.resolved "abc" sampleUser)).1)).user
        = some sampleUser :=
  ⟨⟨by decide, by decide⟩,
    (session_round_trip sampleJSON emptyState "abc" sampleUser (by decide) (by decide)).1⟩

/-- C15: from every session state, `logout` followed by a reload that runs
`load` on a fresh store yields the logged-out state: no user, `loading`
false, no credential header, and neither key persisted. -/
theorem logout_reload_load (json : JSON) (s : State) :
    (load json (reload (logout s))).user = none
      ∧ (load json (reload (logout s))).loading = false
      ∧ (load json (reload (logout s))).authorization = none
      ∧ getItem (load json (reload (logout s))).localStorage "token" = none
      ∧ getItem (load json (reload (logout s))).localStorage "user" = none := by
  have hr := getItem_removed_both s.localStorage
  have hl := load_of_token_none json (reload (logout s)) hr.1
  rw [hl]
  exact ⟨rfl, rfl, rfl, hr.1, hr.2⟩

/-- C16 as stated fails for an empty token: the key `token` is present with
the empty string as its value, the user record does not parse, and `load`
skips the whole branch, so both keys stay persisted. -/
theorem load_corrupt_user_empty_token_counterexample :
    getItem (persisted (some "") (some "oops")).localStorage "token" = some ""
      ∧ sampleJSON.parse "oops" = Parsed.throws
      ∧ getItem (load sampleJSON (persisted (some "") (some "oops"))).localStorage "token"
        = some ""
      ∧ getItem (load sampleJSON (persisted (some "") (some "oops"))).localStorage "user"
        = some "oops" := by
  decide

/-- C16, amended: for every persisted state in which a non-empty token is
present and the persisted user record fails to parse, `load` (a total
function: the exception is caught) ends in the logged-out state, with no
user and `loading` false, and removes both persisted keys. -/
theorem load_corrupt_user (json : JSON) (s : State) (token text : String)
    (hfresh : s.user = none)
    (htoken : getItem s.localStorage "token" = some token) (hne : token ≠ "")
    (huser : getItem s.localStorage "user" = some text)
    (hparse : json.parse text = Parsed.throws) :
    (load json s).user = none
      ∧ (load json s).loading = false
      ∧ getItem (load json s).localStorage "token" = none
      ∧ getItem (load json s).localStorage "user" = none := by
  have hl := load_of_throws json s token htoken hne (by rw [huser]; exact hparse)
  have hr := getItem_removed_both s.localStorage
  rw [hl]
  exact ⟨hfresh, rfl, hr.1, hr.2⟩

/-- Witness for the amended C16: token `abc` with the user record `oops`. -/
theorem load_corrupt_user_witness :
    ((persisted (some "abc") (some "oops")).user = none
        ∧ getItem (persisted (some "abc") (some "oops")).localStorage "token" = some "abc"
        ∧ "abc" ≠ ""
        ∧ getItem (persisted (some "abc") (some "oops")).localStorage "user" = some "oops"
        ∧ sampleJSON.parse "oops" = Parsed.throws)
      ∧ (load sampleJSON (persisted (some "abc") (some "oops"))).user = none
      ∧ (load sampleJSON (persisted (some "abc") (some "oops"))).loading = false
      ∧ getItem (load sampleJSON (persisted (some "abc") (some "oops"))).localStorage "token"
        = none
      ∧ getItem (load sampleJSON (persisted (some "abc") (some "oops"))).localStorage "user"
        = none :=
  ⟨⟨rfl, by decide, by decide, by decide, by decide⟩,
    load_corrupt_user sampleJSON (persisted (some "abc") (some "oops")) "abc" "oops"
      rfl (by decide) (by decide) (by decide) (by decide)⟩

/-- C17 fails on the code: with token `abc` and the corrupt user record
`oops` persisted, `load` on a fresh page removes both keys and restores no
user, but the `Authorization` header it set before parsing is still
`Bearer abc` when it has finished. -/
theorem load_corrupt_user_header_remains :
    sampleJSON.parse "oops" = Parsed.throws
      ∧ (persisted (some "abc") (some "oops")).authorization = none
      ∧ (load sampleJSON (persisted (some "abc") (some "oops"))).authorization
        = some "Bearer abc"
      ∧ (load sampleJSON (persisted (some "abc") (some "oops"))).user = none
      ∧ getItem (load sampleJSON (persisted (some "abc") (some "oops"))).localStorage "token"
        = none := by
  decide

/-- C18 as stated fails in the partial states.  With no token and a user
record persisted, `load` leaves the user record in place; with the token
`abc` and no user record, `load` leaves the token in place (and sets the
header).  Neither partial state is erased. -/
theorem load_partial_state_counterexample :
    (getItem (persisted none (some (sampleStringify sampleUser))).localStorage "token" = none
        ∧ getItem (load sampleJSON
            (persisted none (some (sampleStringify sampleUser)))).localStorage "user"
          = some (sampleStringify sampleUser))
      ∧ (getItem (persisted (some "abc") none).localStorage "user" = none
        ∧ getItem (load sampleJSON (persisted (some "abc") none)).localStorage "token"
          = some "abc"
        ∧ (load sampleJSON (persisted (some "abc") none)).authorization
          = some "Bearer abc") := by
  decide

/-- C18, amended: `load` on a fresh store always ends with `loading` false.
If the token is absent or empty it ends logged-out and leaves the persisted
data as it was.  If a non-empty token is present, then: when the user record
fails to parse, it ends logged-out and neither key is persisted afterwards;
when the user record is absent or parses to a falsy value, it ends with no
user and leaves the persisted data as it was; and in the remaining case,
where the user record parses to a user value, it ends authenticated with
exactly that token/user pair. -/
theorem load_cases (json : JSON) (s : State) :
    (load json (reload s)).loading = false
      ∧ ((getItem s.localStorage "token" = none ∨ getItem s.localStorage "token" = some "") →
          (load json (reload s)).user = none
            ∧ (load json (reload s)).localStorage = s.localStorage)
      ∧ (∀ token, getItem s.localStorage "token" = some token → token ≠ "" →
          (parseItem json (getItem s.localStorage "user") = Parsed.throws →
              (load json (reload s)).user = none
                ∧ getItem (load json (reload s)).localStorage "token" = none
                ∧ getItem (load json (reload s)).localStorage "user" = none)
            ∧ (getItem s.localStorage "user" = none
                ∨ parseItem json (getItem s.localStorage "user") = Parsed.falsy →
              (load json (reload s)).user = none
                ∧ (load json (reload s)).localStorage = s.localStorage)
            ∧ (∀ userData,
                parseItem json (getItem s.localStorage "user") = Parsed.value userData →
              (load json (reload s)).user = some userData
                ∧ (load json (reload s)).authorization = some ("Bearer " ++ token)
                ∧ (load json (reload s)).localStorage = s.localStorage)) := by
  refine ⟨rfl, ?_, ?_⟩
  · rintro (hnone | hempty)
    · rw [load_of_token_none json (reload s) hnone]
      exact ⟨rfl, rfl⟩
    · rw [load_of_token_empty json (reload s) hempty]
      exact ⟨rfl, rfl⟩
  · intro token htoken hne
    refine ⟨?_, ?_, ?_⟩
    · intro hparse
      rw [load_of_throws json (reload s) token htoken hne hparse]
      exact ⟨rfl, getItem_removed_both s.localStorage⟩
    · intro habsent
      have hparse : parseItem json (getItem s.localStorage "user") = Parsed.falsy := by
        rcases habsent with hnone | hfalsy
        · rw [hnone]; rfl
        · exact hfalsy
      rw [load_of_falsy json (reload s) token htoken hne hparse]
      exact ⟨rfl, rfl⟩
    · intro userData hparse
      rw [load_of_value json (reload s) token userData htoken hne hparse]
      exact ⟨rfl, rfl, rfl⟩

/-- Witness for the amended C18: the token `abc` persisted together with the
serialised sample user restores exactly that pair. -/
theorem load_cases_witness :
    (getItem (persisted (some "abc") (some (sampleStringify sampleUser))).localStorage "token"
          = some "abc"
        ∧ "abc" ≠ ""
        ∧ parseItem sampleJSON
            (getItem (persisted (some "abc") (some (sampleStringify sampleUser))).localStorage
              "user")
          = Parsed.value sampleUser)
      ∧ (load sampleJSON
          (reload (persisted (some "abc") (some (sampleStringify sampleUser))))).user
        = some sampleUser
      ∧ (load sampleJSON
          (reload (persisted (some "abc") (some (sampleStringify sampleUser))))).authorization
        = some ("Bearer " ++ "abc") :=
  have h := ((load_cases sampleJSON
    (persisted (some "abc") (some (sampleStringify sampleUser)))).2.2
      "abc" (by decide) (by decide)).2.2 sampleUser (by decide)
  ⟨⟨by decide, by decide, by decide⟩, h.1, h.2.1⟩

/-- C19 fails on the code: from a logged-out page whose store holds neither
key, a `login` whose request resolves with token `abc` and whose write of the
user record is rejected by the quota leaves the token persisted without the
user record, so the two keys are no longer in lock-step. -/
theorem login_user_write_rejected_breaks_lockStep :
    lockStep crowdedState.localStorage
      ∧ getItem (run sampleJSON crowdedState
          [Op.login (Response.userWriteThrows "abc" sampleUser)]).localStorage "token"
        = some "abc"
      ∧ getItem (run sampleJSON crowdedState
          [Op.login (Response.userWriteThrows "abc" sampleUser)]).localStorage "user" = none
      ∧ ¬ lockStep (run sampleJSON crowdedState
          [Op.login (Response.userWriteThrows "abc" sampleUser)]).localStorage := by
  unfold lockStep
  decide

/-- C20 as stated fails when the store rejects the second write: the login
response is successful, yet `login` returns the failure result, the user
record is not persisted, and neither the header nor the current user is
set. -/
theorem login_resolved_write_rejected_counterexample :
    (login sampleJSON crowdedState (Response.userWriteThrows "abc" sampleUser)).2
        = { success := false, error := some "Login failed" }
      ∧ getItem (login sampleJSON crowdedState
          (Response.userWriteThrows "abc" sampleUser)).1.localStorage "user" = none
      ∧ (login sampleJSON crowdedState
          (Response.userWriteThrows "abc" sampleUser)).1.authorization = none
      ∧ (login sampleJSON crowdedState (Response.userWriteThrows "abc" sampleUser)).1.user
        = none := by
  decide

/-- C20, amended: for every prior session state and every successful login
response `{token, user}` for which `localStorage` accepts both writes,
`login` overwrites the state: afterwards the persisted token is `token`, the
persisted user record is the serialisation of `user`, the credential header
is `Bearer ` followed by `token`, the current user is `user`, and the result
is `{ success: true }`.  When `localStorage` rejects one of the two writes,
`login` returns the failure result with the message `Login failed` and leaves
the credential header and the current user as they were. -/
theorem login_success (json : JSON) (s : State) (token : String) (user : App.User) :
    (getItem (login json s (Response.resolved token user)).1.localStorage "token" = some token
        ∧ getItem (login json s (Response.resolved token user)).1.localStorage "user"
          = some (json.stringify user)
        ∧ (login json s (Response.resolved token user)).1.authorization
          = some ("Bearer " ++ token)
        ∧ (login json s (Response.resolved token user)).1.user = some user
        ∧ (login json s (Response.resolved token user)).2
          = { success := true, error := none })
      ∧ ((login json s (Response.tokenWriteThrows token user)).2
          = { success := false, error := some "Login failed" }
        ∧ (login json s (Response.tokenWriteThrows token user)).1.authorization
          = s.authorization
        ∧ (login json s (Response.tokenWriteThrows token user)).1.user = s.user)
      ∧ ((login json s (Response.userWriteThrows token user)).2
          = { success := false, error := some "Login failed" }
        ∧ (login json s (Response.userWriteThrows token user)).1.authorization
          = s.authorization
        ∧ (login json s (Response.userWriteThrows token user)).1.user = s.user) := by
  have hw := getItem_written_both s.localStorage token (json.stringify user)
  refine ⟨?_, ⟨rfl, rfl, rfl⟩, ⟨rfl, rfl, rfl⟩⟩
  rw [login_resolved]
  exact ⟨hw.1, hw.2, rfl, rfl, rfl⟩

end AuthContext

/-! ## Failure results, registration, logout and repeated load -/

namespace AuthContext

/-- C21: `login` never raises.  For every failure of the remote call it
returns the failure result `{ success: false, error: m }`: without a detail
(a network error with no response) `m` is `Login failed`, and with a detail
`d` in the error response `m` is `d`, except that an empty `d` counts as no
message and gives `Login failed`. -/
theorem login_failure (json : JSON) (s : State) :
    (login json s (Response.rejected none)).2
        = { success := false, error := some "Login failed" }
      ∧ ∀ d : String, (login json s (Response.rejected (some d))).2
        = { success := false, error := some (if d = "" then "Login failed" else d) } := by
  refine ⟨rfl, fun d => ?_⟩
  simp only [login, errorMessage]

/-- C22: `register` has the contract shape of `login`.  For every prior
state and every outcome of the remote call it produces the same session state
and the same success flag as `login`; on success the results are equal, and
on failure the two error messages are the detail-or-generic message built
with `Registration failed` for `register` and with `Login failed` for
`login`. -/
theorem register_same_as_login (json : JSON) (s : State) (response : Response) :
    (register json s response).1 = (login json s response).1
      ∧ (register json s response).2.success = (login json s response).2.success
      ∧ (∀ token user, (register json s (Response.resolved token user)).2
          = (login json s (Response.resolved token user)).2)
      ∧ (∀ detail, (register json s (Response.rejected detail)).2.error
            = some (errorMessage detail "Registration failed")
          ∧ (login json s (Response.rejected detail)).2.error
            = some (errorMessage detail "Login failed")) := by
  refine ⟨?_, ?_, fun _ _ => rfl, fun _ => ⟨rfl, rfl⟩⟩
  · cases response <;> rfl
  · cases response <;> rfl

/-- C23: `logout` always succeeds.  From every session state it ends in the
logged-out state: the persisted token and the persisted user are removed, the
`Authorization` header is unset and the current user is absent. -/
theorem logout_logged_out (s : State) :
    getItem (logout s).localStorage "token" = none
      ∧ getItem (logout s).localStorage "user" = none
      ∧ (logout s).authorization = none
      ∧ (logout s).user = none := by
  have hr := getItem_removed_both s.localStorage
  exact ⟨hr.1, hr.2, rfl, rfl⟩

/-- C28: a failed `login` or `register` is atomic with respect to the
session.  For every prior state, when the remote call fails the whole state
is what it was: the persisted token, the persisted user record, the
credential header and the current user. -/
theorem failed_call_atomic (json : JSON) (s : State) (detail : Option String) :
    ((login json s (Response.rejected detail)).1 = s
        ∧ (register json s (Response.rejected detail)).1 = s)
      ∧ (getItem (login json s (Response.rejected detail)).1.localStorage "token"
          = getItem s.localStorage "token"
        ∧ getItem (login json s (Response.rejected detail)).1.localStorage "user"
          = getItem s.localStorage "user"
        ∧ (login json s (Response.rejected detail)).1.authorization = s.authorization
        ∧ (login json s (Response.rejected detail)).1.user = s.user)
      ∧ (getItem (register json s (Response.rejected detail)).1.localStorage "token"
          = getItem s.localStorage "token"
        ∧ getItem (register json s (Response.rejected detail)).1.localStorage "user"
          = getItem s.localStorage "user"
        ∧ (register json s (Response.rejected detail)).1.authorization = s.authorization
        ∧ (register json s (Response.rejected detail)).1.user = s.user) :=
  ⟨⟨rfl, rfl⟩, ⟨rfl, rfl, rfl, rfl⟩, ⟨rfl, rfl, rfl, rfl⟩⟩

/-- C29: `load` is idempotent on the session state.  For every state,
running the effect a second time right after the first leaves the persisted
keys, the credential header, the current user and the loading flag as the
first run left them. -/
theorem load_idempotent (json : JSON) (s : State) :
    load json (load json s) = load json s := by
  cases htoken : getItem s.localStorage "token" with
  | none =>
    rw [load_of_token_none json s htoken]
    exact load_of_token_none json { s with loading := false } htoken
  | some token =>
    by_cases hne : token = ""
    · subst hne
      rw [load_of_token_empty json s htoken]
      exact load_of_token_empty json { s with loading := false } htoken
    · cases hparse : parseItem json (getItem s.localStorage "user") with
      | throws =>
        rw [load_of_throws json s token htoken hne hparse]
        exact load_of_token_none json _ (getItem_removed_both s.localStorage).1
      | falsy =>
        rw [load_of_falsy json s token htoken hne hparse]
        exact load_of_falsy json _ token htoken hne hparse
      | value userData =>
        rw [load_of_value json s token userData htoken hne hparse]
        exact load_of_value json _ token userData htoken hne hparse

end AuthContext

/-! ## Booking modal: submission, initial draft and monotonicity -/

namespace PublicBooking

/-- The state after `handleSubmit` when the request was sent and rejected. -/
theorem handleSubmit_rejected (car : Car) (st : ModalState) (post : BookingData → PostOutcome)
    (data : BookingData) (detail : Option String)
    (hdata : bookingData car st.formData = some data)
    (hfail : post data = PostOutcome.rejected detail) :
    handleSubmit car st post =
      { formData := st.formData, loading := false, success := st.success,
        error := AuthContext.errorMessage detail "Failed to create booking" } := by
  simp only [handleSubmit, hdata, hfail]

/-- C24: for every booking draft and every failure of the booking-creation
request, `handleSubmit` leaves every field of `formData` unchanged, leaves
`success` as it was (so the confirmation view is not shown), ends with
`loading` false, and sets the displayed error to the server's detail message
when there is a non-empty one and to `Failed to create booking` otherwise. -/
theorem handleSubmit_failure (car : Car) (st : ModalState) (post : BookingData → PostOutcome)
    (data : BookingData) (detail : Option String)
    (hdata : bookingData car st.formData = some data)
    (hfail : post data = PostOutcome.rejected detail) :
    (handleSubmit car st post).formData = st.formData
      ∧ (handleSubmit car st post).success = st.success
      ∧ (handleSubmit car st post).loading = false
      ∧ (handleSubmit car st post).error
        = (match detail with
           | some d => if d = "" then "Failed to create booking" else d
           | none => "Failed to create booking") := by
  rw [handleSubmit_rejected car st post data detail hdata hfail]
  refine ⟨rfl, rfl, rfl, ?_⟩
  cases detail <;> rfl

/-- Witness for C24: the server rejects the booking of a freshly opened
draft with the detail `Car unavailable`. -/
theorem handleSubmit_failure_witness :
    (handleSubmit { car_id := "c1", title := "Compact", price_per_day := 45 }
        (openModal (draft (some 1717200000000) (some 1717372800000)))
        (fun _ => PostOutcome.rejected (some "Car unavailable"))).formData
        = draft (some 1717200000000) (some 1717372800000)
      ∧ (handleSubmit { car_id := "c1", title := "Compact", price_per_day := 45 }
        (openModal (draft (some 1717200000000) (some 1717372800000)))
        (fun _ => PostOutcome.rejected (some "Car unavailable"))).success = false
      ∧ (handleSubmit { car_id := "c1", title := "Compact", price_per_day := 45 }
        (openModal (draft (some 1717200000000) (some 1717372800000)))
        (fun _ => PostOutcome.rejected (some "Car unavailable"))).loading = false
      ∧ (handleSubmit { car_id := "c1", title := "Compact", price_per_day := 45 }
        (openModal (draft (some 1717200000000) (some 1717372800000)))
        (fun _ => PostOutcome.rejected (some "Car unavailable"))).error = "Car unavailable" :=
  handleSubmit_failure { car_id := "c1", title := "Compact", price_per_day := 45 }
    (openModal (draft (some 1717200000000) (some 1717372800000)))
    (fun _ => PostOutcome.rejected (some "Car unavailable"))
    { car_id := "c1", client_name := "", client_email := "", client_phone := "",
      pickup_date := 1717200000000, return_date := 1717372800000,
      pickup_location := "", return_location := "", message := "" }
    (some "Car unavailable") rfl rfl

/-- C25 fails on the code: when the clock advances by one millisecond
between the two readings (here 2024-06-01T00:00:00.000Z and .001Z), the
initial draft lasts 24 hours and 1 millisecond, `calculateDays` returns 2 and
the initial total for a car priced 45 is 90; only equal readings give 1 day
and 45. -/
theorem initialFormData_two_days :
    calculateDays (initialFormData 1717200000000 1717200000001) = 2
      ∧ totalAmount (initialFormData 1717200000000 1717200000001)
          { car_id := "c1", title := "Compact", price_per_day := 45 } = 90
      ∧ calculateDays (initialFormData 1717200000000 1717200000000) = 1 := by
  have h2 : calculateDays (initialFormData 1717200000000 1717200000001) = 2 := by
    rw [calculateDays_eq]; simp [initialFormData, newDate]
  have h1 : calculateDays (initialFormData 1717200000000 1717200000000) = 1 := by
    rw [calculateDays_eq]; simp [initialFormData, newDate]
  refine ⟨h2, ?_, h1⟩
  unfold totalAmount; rw [h2]; norm_num

/-- C30: duration and price are monotone in the rental length.  For a fixed
pickup instant `p` and two return instants `r1 ≤ r2`, both at or after `p`,
`calculateDays` for `r1` is at most `calculateDays` for `r2`, and for every
car with a non-negative `price_per_day` the total for `r1` is at most the
total for `r2`. -/
theorem calculateDays_mono (fd : FormData) (car : Car) (p r1 r2 : Int)
    (hp : p ≤ r1) (hr : r1 ≤ r2) (hprice : 0 ≤ car.price_per_day) :
    calculateDays { fd with pickup_date := some p, return_date := some r1 }
        ≤ calculateDays { fd with pickup_date := some p, return_date := some r2 }
      ∧ totalAmount { fd with pickup_date := some p, return_date := some r1 } car
        ≤ totalAmount { fd with pickup_date := some p, return_date := some r2 } car := by
  have hdays : calculateDays { fd with pickup_date := some p, return_date := some r1 }
      ≤ calculateDays { fd with pickup_date := some p, return_date := some r2 } := by
    rw [calculateDays_eq_max, calculateDays_eq_max]
    simp only [newDate]
    rw [abs_of_nonneg (by omega : 0 ≤ r1 - p), abs_of_nonneg (by omega : 0 ≤ r2 - p)]
    apply max_le_max (le_refl 1)
    exact Int.ediv_le_ediv (by norm_num) (by omega)
  refine ⟨hdays, ?_⟩
  unfold totalAmount
  exact mul_le_mul_of_nonneg_right (by exact_mod_cast hdays) hprice

/-- Witness for C30: pickup on 2024-06-01, returns on 2024-06-02 and on
2024-06-04, a car priced 45 per day. -/
theorem calculateDays_mono_witness :
    ((1717200000000 : Int) ≤ 1717286400000 ∧ (1717286400000 : Int) ≤ 1717459200000
        ∧ (0 : ℚ) ≤ 45)
      ∧ calculateDays { draft none none with
            pickup_date := some 1717200000000, return_date := some 1717286400000 }
          ≤ calculateDays { draft none none with
            pickup_date := some 1717200000000, return_date := some 1717459200000 }
      ∧ totalAmount { draft none none with
            pickup_date := some 1717200000000, return_date := some 1717286400000 }
            { car_id := "c1", title := "Compact", price_per_day := 45 }
          ≤ totalAmount { draft none none with
            pickup_date := some 1717200000000, return_date := some 1717459200000 }
            { car_id := "c1", title := "Compact", price_per_day := 45 } :=
  ⟨⟨by decide, by decide, by norm_num⟩,
    calculateDays_mono (draft none none)
      { car_id := "c1", title := "Compact", price_per_day := 45 }
      1717200000000 1717286400000 1717459200000 (by decide) (by decide) (by norm_num)⟩

end PublicBooking

/-! ## Redirect chains through the route table -/

namespace App

/-- The route that matches `/admin`. -/
theorem routeFor_admin :
    routeFor "/admin" = RouteElement.protectedRoute ["super_admin"] Page.SuperAdminDashboard := by
  decide

/-- The route that matches `/dashboard`. -/
theorem routeFor_dashboard :
    routeFor "/dashboard"
      = RouteElement.protectedRoute ["agency_admin", "staff"] Page.AgencyDashboard := by
  decide

/-- The route that matches `/unauthorized`. -/
theorem routeFor_unauthorized :
    routeFor "/unauthorized" = RouteElement.plain Page.accessDenied := by
  decide

/-- Every guarded route of the table is one of the two dashboards with its
own list of roles. -/
theorem routeFor_protected (location : String) (allowedRoles : List String) (page : Page)
    (h : routeFor location = RouteElement.protectedRoute allowedRoles page) :
    (allowedRoles = ["super_admin"] ∧ page = Page.SuperAdminDashboard)
      ∨ (allowedRoles = ["agency_admin", "staff"] ∧ page = Page.AgencyDashboard) := by
  unfold routeFor at h
  split at h
  · exact RouteElement.noConfusion h
  · split_ifs at h
    · left
      exact ⟨(RouteElement.protectedRoute.inj h).1.symm, (RouteElement.protectedRoute.inj h).2.symm⟩
    · right
      exact ⟨(RouteElement.protectedRoute.inj h).1.symm, (RouteElement.protectedRoute.inj h).2.symm⟩

/-- No route of the table shows a dashboard without a guard. -/
theorem routeFor_plain_not_dashboard (location : String) (page : Page)
    (h : routeFor location = RouteElement.plain page ∨ routeFor location
      = RouteElement.publicRoute page) :
    page ≠ Page.SuperAdminDashboard ∧ page ≠ Page.AgencyDashboard := by
  unfold routeFor at h
  split at h
  · rcases h with h | h <;> exact RouteElement.noConfusion h
  · split_ifs at h <;> rcases h with h | h <;>
      first
        | exact False.elim h
        | exact RouteElement.noConfusion h
        | (have hp := RouteElement.plain.inj h; subst hp; exact ⟨by decide, by decide⟩)
        | (have hp := RouteElement.publicRoute.inj h; subst hp; exact ⟨by decide, by decide⟩)

/-- A role that is none of the three known roles is in neither list of
allowed roles. -/
theorem includes_unknown_role (role : Option String)
    (h1 : role ≠ some "super_admin") (h2 : role ≠ some "agency_admin")
    (h3 : role ≠ some "staff") :
    includes ["super_admin"] role = false ∧ includes ["agency_admin", "staff"] role = false := by
  cases role with
  | none => exact ⟨rfl, rfl⟩
  | some r =>
    have e1 : r ≠ "super_admin" := fun e => h1 (by rw [e])
    have e2 : r ≠ "agency_admin" := fun e => h2 (by rw [e])
    have e3 : r ≠ "staff" := fun e => h3 (by rw [e])
    simp [includes, e1, e2, e3]

/-- C26: post-login redirects land on a permitted route.  For each of the
roles `super_admin`, `agency_admin` and `staff`, the route to which
`PublicRoute` redirects an authenticated user of that role is guarded in the
route table by a list of allowed roles that contains the role, and the app
shows the dashboard there instead of redirecting again. -/
theorem post_login_redirect_permitted (user : User) :
    (PublicRoute { user := some { user with role := some "super_admin" }, loading := false }
          = Element.navigate "/admin" true
        ∧ routeFor "/admin"
          = RouteElement.protectedRoute ["super_admin"] Page.SuperAdminDashboard
        ∧ "super_admin" ∈ ["super_admin"]
        ∧ render { user := some { user with role := some "super_admin" }, loading := false }
            "/admin" = Rendered.page Page.SuperAdminDashboard)
      ∧ (PublicRoute { user := some { user with role := some "agency_admin" }, loading := false }
          = Element.navigate "/dashboard" true
        ∧ routeFor "/dashboard"
          = RouteElement.protectedRoute ["agency_admin", "staff"] Page.AgencyDashboard
        ∧ "agency_admin" ∈ ["agency_admin", "staff"]
        ∧ render { user := some { user with role := some "agency_admin" }, loading := false }
            "/dashboard" = Rendered.page Page.AgencyDashboard)
      ∧ (PublicRoute { user := some { user with role := some "staff" }, loading := false }
          = Element.navigate "/dashboard" true
        ∧ "staff" ∈ ["agency_admin", "staff"]
        ∧ render { user := some { user with role := some "staff" }, loading := false }
            "/dashboard" = Rendered.page Page.AgencyDashboard) := by
  refine ⟨⟨?_, routeFor_admin, by simp, ?_⟩, ⟨?_, routeFor_dashboard, by simp, ?_⟩,
    ⟨?_, by simp, ?_⟩⟩
  · rw [PublicRoute_some]; simp
  · simp [render, routeFor_admin, guarded, ProtectedRoute, includes]
  · rw [PublicRoute_some]; simp
  · simp [render, routeFor_dashboard, guarded, ProtectedRoute, includes]
  · rw [PublicRoute_some]; simp
  · simp [render, routeFor_dashboard, guarded, ProtectedRoute, includes]

/-- C27: for every authenticated user whose role is none of `super_admin`,
`agency_admin` and `staff`, `PublicRoute` redirects to `/dashboard`, the
guard of `/dashboard` redirects to `/unauthorized`, and `/unauthorized` is an
unguarded route that shows the access-denied page, so the chain stops after
two steps; at no location does the app show such a user the admin or the
agency dashboard. -/
theorem unknown_role_redirect_chain (user : User)
    (h1 : user.role ≠ some "super_admin") (h2 : user.role ≠ some "agency_admin")
    (h3 : user.role ≠ some "staff") :
    PublicRoute { user := some user, loading := false } = Element.navigate "/dashboard" true
      ∧ render { user := some user, loading := false } "/dashboard"
        = Rendered.navigate "/unauthorized" true
      ∧ routeFor "/unauthorized" = RouteElement.plain Page.accessDenied
      ∧ render { user := some user, loading := false } "/unauthorized"
        = Rendered.page Page.accessDenied
      ∧ ∀ location : String,
          render { user := some user, loading := false } location
              ≠ Rendered.page Page.SuperAdminDashboard
            ∧ render { user := some user, loading := false } location
              ≠ Rendered.page Page.AgencyDashboard := by
  have hinc := includes_unknown_role user.role h1 h2 h3
  refine ⟨?_, ?_, routeFor_unauthorized, ?_, ?_⟩
  · rw [PublicRoute_some, if_neg h1]
  · simp [render, routeFor_dashboard, guarded, ProtectedRoute, hinc.2]
  · simp [render, routeFor_unauthorized]
  · intro location
    unfold render
    cases hroute : routeFor location with
    | plain page =>
      have hp := routeFor_plain_not_dashboard location page (Or.inl hroute)
      exact ⟨fun h => hp.1 (Rendered.page.inj h), fun h => hp.2 (Rendered.page.inj h)⟩
    | publicRoute page =>
      rw [PublicRoute_some]
      constructor <;> (intro h; split_ifs at h <;> simp [guarded] at h)
    | protectedRoute allowedRoles page =>
      rcases routeFor_protected location allowedRoles page hroute with ⟨hr, _⟩ | ⟨hr, _⟩
      · subst hr
        simp [guarded, ProtectedRoute, hinc.1]
      · subst hr
        simp [guarded, ProtectedRoute, hinc.2]
    | redirect path =>
      exact ⟨fun h => Rendered.noConfusion h, fun h => Rendered.noConfusion h⟩

/-- Witness for C27: a user whose role is the unknown value `guest`. -/
theorem unknown_role_redirect_chain_witness :
    ((userWithRole (some "guest")).role ≠ some "super_admin"
        ∧ (userWithRole (some "guest")).role ≠ some "agency_admin"
        ∧ (userWithRole (some "guest")).role ≠ some "staff")
      ∧ PublicRoute { user := some (userWithRole (some "guest")), loading := false }
        = Element.navigate "/dashboard" true
      ∧ render { user := some (userWithRole (some "guest")), loading := false } "/dashboard"
        = Rendered.navigate "/unauthorized" true :=
  have h := unknown_role_redirect_chain (userWithRole (some "guest"))
    (by decide) (by decide) (by decide)
  ⟨⟨by decide, by decide, by decide⟩, h.1, h.2.1⟩

end App
